import Mathlib

/-!
Verification of the per-user memory store and safety monitor of an AI
coaching assistant.  Messages are modelled as lists of characters,
numeric values as rationals, Python dictionaries as insertion-ordered
association lists, and the wall clock as an explicit rational parameter.
-/

set_option maxRecDepth 4000

attribute [local semireducible] Rat.add Rat.mul Rat.sub Rat.inv Rat.ofScientific

/-! ### Python string primitives -/

/-- The apostrophe character, used inside several lexicon phrases. -/
def apos : Char := Char.ofNat 39

/-- A phrase containing a single apostrophe between its two halves. -/
def aw (a b : String) : List Char := a.toList ++ apos :: b.toList

/-- Python whitespace characters recognised by `str.split` / `str.strip`. -/
def isWS (c : Char) : Bool :=
  c = ' ' || c = '\t' || c = '\n' || c = '\r' || c = '\x0b' || c = '\x0c'

/-- Python `str.lower` (character-wise). -/
def pyLower (s : List Char) : List Char := s.map Char.toLower

/-- Boolean list-prefix test. -/
def listPrefixB [DecidableEq α] : List α → List α → Bool
  | [], _ => true
  | _ :: _, [] => false
  | a :: as, b :: bs => a = b && listPrefixB as bs

/-- Index of the first occurrence of `sub` in `s` (Python `str.find`,
with `none` for Python's `-1`). -/
def findIdx (sub : List Char) : List Char → Option Nat
  | [] => if listPrefixB sub [] then some 0 else none
  | c :: rest =>
    if listPrefixB sub (c :: rest) then some 0
    else (findIdx sub rest).map (· + 1)

/-- Python `s.find(sub, start)`. -/
def findFrom (s sub : List Char) (start : Nat) : Option Nat :=
  (findIdx sub (s.drop start)).map (· + start)

/-- Python `sub in s` (substring containment). -/
def strContains (s sub : List Char) : Bool := (findIdx sub s).isSome

/-- Python `s.rfind(c, 0, stop)` for a single character: index of the last
occurrence of `c` strictly before `stop`. -/
def rfindChar (c : Char) (s : List Char) (stop : Nat) : Option Nat :=
  let t := s.take stop
  match t.reverse.findIdx? (· = c) with
  | some j => some (t.length - 1 - j)
  | none => none

/-- Python `str.strip`. -/
def pyStrip (s : List Char) : List Char :=
  ((s.dropWhile isWS).reverse.dropWhile isWS).reverse

/-- Python `str.split()` helper: `cur` holds the reversed current word. -/
def splitWSAux (cur : List Char) : List Char → List (List Char)
  | [] => if cur = [] then [] else [cur.reverse]
  | c :: rest =>
    if isWS c then
      (if cur = [] then [] else [cur.reverse]) ++ splitWSAux [] rest
    else splitWSAux (c :: cur) rest

/-- Python `str.split()` with no arguments: whitespace runs, empties dropped. -/
def splitWS (s : List Char) : List (List Char) := splitWSAux [] s

/-- Python slice `l[-n:]` for a nonnegative `n` (note that `l[-0:]` is the
whole list, since `-0 == 0` in Python). -/
def pySliceLast (n : Nat) (l : List α) : List α :=
  if n = 0 then l else l.drop (l.length - n)

/-- The last `n` elements of a list. -/
def takeLast (n : Nat) (l : List α) : List α := l.drop (l.length - n)

/-- Numeric value of a run of decimal digits. -/
def natOfDigits (ds : List Char) : Nat :=
  ds.foldl (fun a c => a * 10 + (c.toNat - 48)) 0

/-- Python `int()` applied to a rational (truncation toward zero). -/
def pyInt (q : ℚ) : ℤ := q.num.tdiv (q.den : ℤ)

/-- Decimal rendering of an integer, as produced by Python string formatting. -/
def intDecString (i : ℤ) : String :=
  if i < 0 then "-" ++ String.mk (Nat.toDigits 10 i.natAbs)
  else String.mk (Nat.toDigits 10 i.toNat)

/-! ### Insertion-ordered association lists (Python `dict`) -/

/-- Python `d.get(k)`. -/
def alistGet [DecidableEq κ] (d : List (κ × β)) (k : κ) : Option β :=
  match d with
  | [] => none
  | (k', v) :: rest => if k' = k then some v else alistGet rest k

/-- Python `d[k] = v`: update in place if the key exists (keeping its
position), otherwise append at the end. -/
def alistSet [DecidableEq κ] (d : List (κ × β)) (k : κ) (v : β) : List (κ × β) :=
  match d with
  | [] => [(k, v)]
  | (k', v') :: rest =>
    if k' = k then (k', v) :: rest else (k', v') :: alistSet rest k v

theorem alistGet_set_self [DecidableEq κ] (d : List (κ × β)) (k : κ) (v : β) :
    alistGet (alistSet d k v) k = some v := by
  induction d with
  | nil => simp [alistSet, alistGet]
  | cons hd tl ih =>
    obtain ⟨k', v'⟩ := hd
    by_cases h : k' = k <;> simp [alistSet, alistGet, h, ih]

theorem alistGet_set_ne [DecidableEq κ] (d : List (κ × β)) (k k' : κ) (v : β)
    (h : k' ≠ k) : alistGet (alistSet d k v) k' = alistGet d k' := by
  have h' : ¬k = k' := fun hh => h hh.symm
  induction d with
  | nil => simp [alistSet, alistGet, h']
  | cons hd tl ih =>
    obtain ⟨k₀, v₀⟩ := hd
    by_cases h₀ : k₀ = k
    · subst h₀
      simp [alistSet, alistGet, h']
    · by_cases h₁ : k₀ = k' <;> simp [alistSet, alistGet, h₀, h₁, h, h', ih]

theorem mem_alistSet [DecidableEq κ] (d : List (κ × β)) (k : κ) (v : β)
    (p : κ × β) (hp : p ∈ alistSet d k v) : p ∈ d ∨ p.2 = v := by
  induction d with
  | nil =>
    simp [alistSet] at hp
    subst hp; right; rfl
  | cons hd tl ih =>
    obtain ⟨k₀, v₀⟩ := hd
    by_cases h₀ : k₀ = k
    · simp [alistSet, h₀] at hp
      rcases hp with hp | hp
      · subst hp; right; rfl
      · left; exact List.mem_cons_of_mem _ hp
    · simp [alistSet, h₀] at hp
      rcases hp with hp | hp
      · left; simp [hp]
      · rcases ih hp with h | h
        · left; exact List.mem_cons_of_mem _ h
        · right; exact h

theorem alistGet_set_isSome [DecidableEq κ] (d : List (κ × β)) (k k' : κ) (v : β)
    (h : (alistGet d k').isSome = true) :
    (alistGet (alistSet d k v) k').isSome = true := by
  by_cases hk : k' = k
  · subst hk; simp [alistGet_set_self]
  · rw [alistGet_set_ne d k k' v hk]; exact h

/-! ### Data model (`safety.py`) -/

/-- Safety alert levels. -/
inductive SafetyLevel
  | INFO | WARNING | CRITICAL | EMERGENCY
deriving DecidableEq, Repr

/-- The `.value` string of a safety level. -/
def SafetyLevel.value : SafetyLevel → String
  | .INFO => "info"
  | .WARNING => "warning"
  | .CRITICAL => "critical"
  | .EMERGENCY => "emergency"

/-- Categories of safety concerns. -/
inductive SafetyCategory
  | OVERTRAINING | DATA_INCONSISTENCY | LOW_ENGAGEMENT | RESISTANCE
  | CREATIVITY_MISUSE | MENTAL_HEALTH | PERFORMANCE_DROP | TEAM_CONFLICT
  | REWARD_MISUSE | LANGUAGE_BARRIER | FALSE_REPORTING | BURNOUT_LAZINESS
deriving DecidableEq, Repr

/-- The `.value` string of a safety category. -/
def SafetyCategory.value : SafetyCategory → String
  | .OVERTRAINING => "overtraining"
  | .DATA_INCONSISTENCY => "data_inconsistency"
  | .LOW_ENGAGEMENT => "low_engagement"
  | .RESISTANCE => "resistance"
  | .CREATIVITY_MISUSE => "creativity_misuse"
  | .MENTAL_HEALTH => "mental_health"
  | .PERFORMANCE_DROP => "performance_drop"
  | .TEAM_CONFLICT => "team_conflict"
  | .REWARD_MISUSE => "reward_misuse"
  | .LANGUAGE_BARRIER => "language_barrier"
  | .FALSE_REPORTING => "false_reporting"
  | .BURNOUT_LAZINESS => "burnout_laziness"

/-- A safety alert.  The free-form `context` diagnostic bag of the source
(which only echoes values already present in the other fields and the
message) is not modelled. -/
structure SafetyAlert where
  category : SafetyCategory
  level : SafetyLevel
  message : String
  timestamp : ℚ
  userId : String
  recommendedAction : String
  escalationRequired : Bool
deriving DecidableEq, Repr

/-- Per-user engagement metrics kept inside the safety monitor. -/
structure EngagementMetrics where
  messageLength : List Nat
  responseTime : List ℚ
  questionCount : Nat
  enthusiasmScore : List ℚ
deriving DecidableEq, Repr

/-- Fresh engagement-metrics record created on first contact. -/
def EngagementMetrics.init : EngagementMetrics := ⟨[], [], 0, []⟩

/-- The numeric safety thresholds set in `SafetyMonitor.__init__`. -/
structure Thresholds where
  fatigueScore : ℚ
  engagementDrop : ℚ
  performanceDrop : ℚ
  mentalHealthRisk : ℚ
  inconsistencyThreshold : ℚ
  resistanceThreshold : ℚ
  burnoutIndicators : ℚ
deriving DecidableEq, Repr

def defaultThresholds : Thresholds :=
  ⟨8/10, 3/10, 1/5, 7/10, 2/5, 3/5, 3/4⟩

/-- The mutable state of a `SafetyMonitor`.  `userSessions`,
`performanceBaselines` and `mentalHealthIndicators` are initialised empty
and never written or read by any code path; they are kept to state frame
properties. -/
structure SafetyMonitor where
  alerts : List SafetyAlert
  userSessions : List (String × ℚ)
  performanceBaselines : List (String × ℚ)
  engagementMetrics : List (String × EngagementMetrics)
  mentalHealthIndicators : List (String × ℚ)
  thresholds : Thresholds
deriving DecidableEq, Repr

def SafetyMonitor.init : SafetyMonitor := ⟨[], [], [], [], [], defaultThresholds⟩

/-! ### Lexicons (`safety.py`, `SafetyMonitor.__init__` and detector bodies) -/

def strsToLists (l : List String) : List (List Char) := l.map String.toList

def mentalHealthRedFlags : List (List Char) := strsToLists
  ["suicide", "kill myself", "end it all", "not worth living",
   "hopeless", "worthless", "burden", "better off dead",
   "self harm", "cut myself", "hurt myself"]

def overtrainingIndicators : List (List Char) := strsToLists
  ["exhausted", "burned out", "overtrained", "plateaued",
   "no progress", "stagnant", "regressing", "injured",
   "pain", "sore", "tired", "fatigued", "drained"]

def resistancePatterns : List (List Char) :=
  [aw "i can" "t", "impossible".toList, aw "won" "t work", "tried that".toList,
   aw "doesn" "t help", "waste of time".toList, "stupid".toList,
   "pointless".toList, "not for me".toList, aw "doesn" "t fit",
   "too hard".toList, "too easy".toList]

/-- The three word-boundary complexity regexes, as alternative word lists. -/
def complexityPatterns : List (List (List Char)) :=
  [strsToLists ["utilize", "implement", "facilitate", "optimize", "leverage"],
   strsToLists ["paradigm", "methodology", "framework", "infrastructure"],
   strsToLists ["consequently", "furthermore", "moreover", "nevertheless"]]

def dangerousCreativity : List (List Char) := strsToLists
  ["try something new", "experiment", "innovative", "creative",
   "unconventional", "different approach", "outside the box"]

def creativityRiskWords : List (List Char) := strsToLists
  ["injury", "dangerous", "risky", "unsafe"]

def anxietyIndicators : List (List Char) := strsToLists
  ["anxious", "worried", "stressed", "overwhelmed", "panic"]

def depressionIndicators : List (List Char) := strsToLists
  ["sad", "depressed", "hopeless", "worthless", "empty"]

def declineIndicators : List (List Char) := strsToLists
  ["worse", "declined", "dropped", "regressed", "struggling", "failing"]

def injuryIndicators : List (List Char) := strsToLists
  ["injured", "hurt", "pain", "sore", "injury", "hurt"]

def conflictIndicators : List (List Char) := strsToLists
  ["team", "teammate", "coach", "conflict", "argument", "disagreement"]

def gamingIndicators : List (List Char) := strsToLists
  ["easy points", "quick win", "gaming", "cheating", "shortcut"]

def rewardFocus : List (List Char) := strsToLists
  ["reward", "points", "achievement", "badge", "level"]

def nonNativeIndicators : List (List Char) :=
  ["i am not sure".toList, aw "i don" "t understand",
   "confused".toList, "unclear".toList]

def burnoutIndicatorList : List (List Char) :=
  ["exhausted".toList, "burned out".toList, "overwhelmed".toList,
   aw "can" "t continue", "mentally drained".toList,
   "physically drained".toList, "no energy".toList]

def lazinessIndicatorList : List (List Char) :=
  [aw "don" "t feel like it", "too lazy".toList, aw "can" "t be bothered",
   "not motivated".toList, aw "don" "t want to", "avoiding".toList]

def enthusiasmPositiveWords : List (List Char) := strsToLists
  ["excited", "great", "awesome", "amazing", "fantastic", "love", "enjoy"]

def enthusiasmNegativeWords : List (List Char) := strsToLists
  ["boring", "hate", "terrible", "awful", "disappointed", "frustrated"]

/-- The four self-rating regexes of `_detect_false_reporting`, as a literal
prefix (everything before the `(\d+)` group) and a literal suffix
(everything after it). -/
def ratingPatterns : List (List Char × List Char) :=
  [("rate myself ".toList, "/10".toList),
   ("i am ".toList, "/10".toList),
   ("my level is ".toList, []),
   ("i would say ".toList, [])]

/-! ### Regex evaluation helpers -/

/-- Scan positions left to right and return the first successful match,
as `re.search` does. -/
def scanFirst (f : List Char → Option α) : List Char → Option α
  | [] => f []
  | c :: rest =>
    match f (c :: rest) with
    | some a => some a
    | none => scanFirst f rest

/-- Try to match `lit (\d+) suf` at the start of `s`; the digit run is
maximal, which is equivalent to the greedy regex semantics because a
shorter run would leave a digit where `suf` must begin. -/
def matchLitNumAt (lit suf : List Char) (s : List Char) : Option Nat :=
  if listPrefixB lit s then
    let r := s.drop lit.length
    let d := r.takeWhile Char.isDigit
    if !d.isEmpty && listPrefixB suf (r.drop d.length) then
      some (natOfDigits d)
    else none
  else none

/-- `re.search` for a `lit (\d+) suf` pattern. -/
def searchLitNum (lit suf s : List Char) : Option Nat :=
  scanFirst (matchLitNumAt lit suf) s

/-- Is there a whole-word occurrence (with `\b` boundaries) of one of
`words` in `s`?  `prev` is the character just before the current
position. -/
def wordChar (c : Char) : Bool := c.isAlphanum || c = '_'

def wordAt (w : List Char) (prev : Option Char) (s : List Char) : Bool :=
  listPrefixB w s &&
  (match prev with | none => true | some c => !wordChar c) &&
  (match s.drop w.length with | [] => true | c :: _ => !wordChar c)

def hasWordMatchAux (words : List (List Char)) (prev : Option Char) :
    List Char → Bool
  | [] => words.any (fun w => wordAt w prev [])
  | c :: rest =>
    words.any (fun w => wordAt w prev (c :: rest)) ||
    hasWordMatchAux words (some c) rest

def hasWordMatch (words : List (List Char)) (s : List Char) : Bool :=
  hasWordMatchAux words none s

/-! ### Alert constructors (one per emission site in `safety.py`) -/

def overtrainingWarnAlert (uid : String) (now : ℚ) : SafetyAlert :=
  { category := .OVERTRAINING, level := .WARNING,
    message := "Signs of overtraining detected. Consider rest and recovery.",
    timestamp := now, userId := uid,
    recommendedAction := "Enforce mandatory rest period and reduce training intensity",
    escalationRequired := true }

def overtrainingInfoAlert (uid : String) (now : ℚ) : SafetyAlert :=
  { category := .OVERTRAINING, level := .INFO,
    message := "Daily training without rest days detected.",
    timestamp := now, userId := uid,
    recommendedAction := "Recommend rest days and recovery protocols",
    escalationRequired := false }

def dataWarnAlert (uid : String) (now : ℚ) : SafetyAlert :=
  { category := .DATA_INCONSISTENCY, level := .WARNING,
    message := "Unusually high performance improvement reported. Please verify data accuracy.",
    timestamp := now, userId := uid,
    recommendedAction := "Request verification and cross-check with objective measures",
    escalationRequired := false }

def dataInfoAlert (uid : String) (now : ℚ) : SafetyAlert :=
  { category := .DATA_INCONSISTENCY, level := .INFO,
    message := "Conflicting statements detected in user feedback.",
    timestamp := now, userId := uid,
    recommendedAction := "Seek clarification and ask specific questions",
    escalationRequired := false }

def shortResponseAlert (uid : String) (now : ℚ) : SafetyAlert :=
  { category := .LOW_ENGAGEMENT, level := .WARNING,
    message := "Very short response detected. User may be disengaged.",
    timestamp := now, userId := uid,
    recommendedAction := "Adapt tone to be more engaging and ask open-ended questions",
    escalationRequired := false }

def decliningEnthusiasmAlert (uid : String) (now : ℚ) : SafetyAlert :=
  { category := .LOW_ENGAGEMENT, level := .WARNING,
    message := "Declining enthusiasm detected over recent interactions.",
    timestamp := now, userId := uid,
    recommendedAction := "Switch to more supportive coaching style and explore motivation barriers",
    escalationRequired := false }

def resistanceWarnAlert (uid : String) (now : ℚ) : SafetyAlert :=
  { category := .RESISTANCE, level := .WARNING,
    message := "High resistance detected in user response.",
    timestamp := now, userId := uid,
    recommendedAction := "Provide evidence-based reasoning and address concerns directly",
    escalationRequired := false }

def creativityCriticalAlert (uid : String) (now : ℚ) : SafetyAlert :=
  { category := .CREATIVITY_MISUSE, level := .CRITICAL,
    message := "Potentially dangerous creative approach detected.",
    timestamp := now, userId := uid,
    recommendedAction := "Validate safety before encouraging creative approaches",
    escalationRequired := true }

def creativityInfoAlert (uid : String) (now : ℚ) : SafetyAlert :=
  { category := .CREATIVITY_MISUSE, level := .INFO,
    message := "Creative approach suggested. Validating safety.",
    timestamp := now, userId := uid,
    recommendedAction := "Ensure safety protocols are in place before encouragement",
    escalationRequired := false }

def mentalHealthEmergencyAlert (uid : String) (now : ℚ) : SafetyAlert :=
  { category := .MENTAL_HEALTH, level := .EMERGENCY,
    message := "Critical mental health indicators detected. Immediate escalation required.",
    timestamp := now, userId := uid,
    recommendedAction := "Immediately suggest professional help and provide crisis resources",
    escalationRequired := true }

def mentalHealthWarnAlert (uid : String) (now : ℚ) : SafetyAlert :=
  { category := .MENTAL_HEALTH, level := .WARNING,
    message := "Signs of anxiety or depression detected. Suggest professional support.",
    timestamp := now, userId := uid,
    recommendedAction := "Gently suggest professional mental health support and reduce pressure",
    escalationRequired := true }

def performanceDropAlert (uid : String) (now : ℚ) (hasInjury : Bool) : SafetyAlert :=
  { category := .PERFORMANCE_DROP,
    level := if hasInjury then .CRITICAL else .WARNING,
    message := "Performance decline or injury detected. Adjusting coaching intensity.",
    timestamp := now, userId := uid,
    recommendedAction := "Stop high-intensity advice and focus on recovery/support",
    escalationRequired := hasInjury }

def teamConflictAlert (uid : String) (now : ℚ) : SafetyAlert :=
  { category := .TEAM_CONFLICT, level := .WARNING,
    message := "Team conflict detected. Focus on fair motivation without ego inflation.",
    timestamp := now, userId := uid,
    recommendedAction := "Promote team unity and individual growth without comparison",
    escalationRequired := false }

def rewardMisuseAlert (uid : String) (now : ℚ) : SafetyAlert :=
  { category := .REWARD_MISUSE, level := .WARNING,
    message := "Potential reward system gaming detected.",
    timestamp := now, userId := uid,
    recommendedAction := "Adjust incentives to focus on genuine progress and effort",
    escalationRequired := false }

def languageBarrierAlert (uid : String) (now : ℚ) : SafetyAlert :=
  { category := .LANGUAGE_BARRIER, level := .INFO,
    message := "Language barrier detected. Simplifying instructions.",
    timestamp := now, userId := uid,
    recommendedAction := "Rephrase instructions in simpler language and provide examples",
    escalationRequired := false }

def falseReportingAlert (uid : String) (now : ℚ) : SafetyAlert :=
  { category := .FALSE_REPORTING, level := .WARNING,
    message := "Self-rating appears inflated compared to performance data.",
    timestamp := now, userId := uid,
    recommendedAction := "Request objective performance measures and provide honest feedback",
    escalationRequired := false }

def burnoutWarnAlert (uid : String) (now : ℚ) : SafetyAlert :=
  { category := .BURNOUT_LAZINESS, level := .WARNING,
    message := "Genuine burnout detected. Prioritize recovery and rest.",
    timestamp := now, userId := uid,
    recommendedAction := "Implement recovery protocols and reduce training load",
    escalationRequired := true }

def lazinessInfoAlert (uid : String) (now : ℚ) : SafetyAlert :=
  { category := .BURNOUT_LAZINESS, level := .INFO,
    message := "Avoidance behavior detected. Address motivation barriers.",
    timestamp := now, userId := uid,
    recommendedAction := "Focus on motivation and discipline strategies",
    escalationRequired := false }

/-! ### User profile (`memory.py`) -/

/-- A coaching insight stored in the profile. -/
structure Insight where
  content : String
  timestamp : ℚ
deriving DecidableEq, Repr

/-- A safety alert flattened into the profile's `safety_alerts` list
(category and level stored as their `.value` strings). -/
structure StoredAlert where
  category : String
  level : String
  message : String
  timestamp : ℚ
  recommendedAction : String
  escalationRequired : Bool
deriving DecidableEq, Repr

/-- The per-user profile dictionary. -/
structure UserProfile where
  goals : List (List Char)
  preferences : List (String × List (List Char))
  progress : List (List Char × ℚ)
  insights : List Insight
  performanceMetrics : List (String × ℚ)
  mentalState : List (String × Nat)
  safetyAlerts : List StoredAlert
  safetyRecommendations : List String
deriving DecidableEq, Repr

def UserProfile.init : UserProfile := ⟨[], [], [], [], [], [], [], []⟩

/-- One entry of the conversation history. -/
structure ConvEntry where
  role : String
  content : List Char
  timestamp : ℚ
deriving DecidableEq, Repr

/-! ### The twelve detectors (`safety.py`) -/

/-- Number of elements of `l` that occur as substrings of `m`. -/
def hitCount (l : List (List Char)) (m : List Char) : Nat :=
  l.countP (fun w => strContains m w)

/-- `_detect_overtraining`. -/
def detectOvertraining (m : List Char) (uid : String) (th : Thresholds)
    (now : ℚ) : List SafetyAlert :=
  let fatigueScore : ℚ :=
    (hitCount overtrainingIndicators m : ℚ) / (overtrainingIndicators.length : ℚ)
  (if fatigueScore > th.fatigueScore then [overtrainingWarnAlert uid now] else [])
  ++ (if strContains m "training".toList && strContains m "every day".toList then
        [overtrainingInfoAlert uid now] else [])

/-- `_detect_data_inconsistency`. -/
def detectDataInconsistency (m : List Char) (uid : String) (prof : UserProfile)
    (now : ℚ) : List SafetyAlert :=
  (if prof.performanceMetrics ≠ [] then
    (if strContains m "improved by".toList &&
        prof.performanceMetrics.any (fun kv => strContains m kv.1.toList) then
      match searchLitNum "improved by ".toList "%".toList m with
      | some improvement =>
        if improvement > 50 then [dataWarnAlert uid now] else []
      | none => []
    else [])
  else [])
  ++ (if strContains m "but".toList &&
         (strContains m "good".toList || strContains m "bad".toList) then
        [dataInfoAlert uid now] else [])

/-- `_calculate_enthusiasm_score`. -/
def enthusiasmScoreOf (m : List Char) : ℚ :=
  let positiveCount := hitCount enthusiasmPositiveWords m
  let negativeCount := hitCount enthusiasmNegativeWords m
  let totalWords := (splitWS m).length
  if totalWords = 0 then 1/2
  else
    let enthusiasm : ℚ := ((positiveCount : ℚ) - (negativeCount : ℚ)) / (totalWords : ℚ)
    max 0 (min 1 (enthusiasm + 1/2))

/-- `_detect_low_engagement`; returns the alerts and the updated
engagement-metrics dictionary. -/
def detectLowEngagement (m : List Char) (uid : String)
    (eng : List (String × EngagementMetrics)) (now : ℚ) :
    List SafetyAlert × List (String × EngagementMetrics) :=
  let em := (alistGet eng uid).getD EngagementMetrics.init
  let messageLength := (splitWS m).length
  let score := enthusiasmScoreOf m
  let em' := { em with
    messageLength := em.messageLength ++ [messageLength],
    enthusiasmScore := em.enthusiasmScore ++ [score] }
  let a1 := if messageLength < 5 then [shortResponseAlert uid now] else []
  let recent := takeLast 5 em'.enthusiasmScore
  let a2 :=
    if recent.length ≥ 3 && recent.sum / (recent.length : ℚ) < 3/10 then
      [decliningEnthusiasmAlert uid now]
    else []
  (a1 ++ a2, alistSet eng uid em')

/-- `_detect_resistance`. -/
def detectResistance (m : List Char) (uid : String) (th : Thresholds)
    (now : ℚ) : List SafetyAlert :=
  let resistanceScore : ℚ :=
    (hitCount resistancePatterns m : ℚ) / (resistancePatterns.length : ℚ)
  if resistanceScore > th.resistanceThreshold then [resistanceWarnAlert uid now]
  else []

/-- `_detect_creativity_misuse`. -/
def detectCreativityMisuse (m : List Char) (uid : String) (now : ℚ) :
    List SafetyAlert :=
  let creativityIndicators := hitCount dangerousCreativity m
  if creativityIndicators > 0 then
    if creativityRiskWords.any (fun w => strContains m w) then
      [creativityCriticalAlert uid now]
    else [creativityInfoAlert uid now]
  else []

/-- `_detect_mental_health_risks`. -/
def detectMentalHealthRisks (m : List Char) (uid : String) (th : Thresholds)
    (now : ℚ) : List SafetyAlert :=
  let redFlagCount := hitCount mentalHealthRedFlags m
  (if redFlagCount > 0 then [mentalHealthEmergencyAlert uid now] else [])
  ++ (let anxietyScore := hitCount anxietyIndicators m
      let depressionScore := hitCount depressionIndicators m
      let mentalHealthRisk : ℚ :=
        ((anxietyScore : ℚ) + (depressionScore : ℚ)) /
          ((anxietyIndicators.length : ℚ) + (depressionIndicators.length : ℚ))
      if mentalHealthRisk > th.mentalHealthRisk then [mentalHealthWarnAlert uid now]
      else [])

/-- `_detect_performance_drop`. -/
def detectPerformanceDrop (m : List Char) (uid : String) (now : ℚ) :
    List SafetyAlert :=
  let hasDecline := declineIndicators.any (fun w => strContains m w)
  let hasInjury := injuryIndicators.any (fun w => strContains m w)
  if hasDecline || hasInjury then [performanceDropAlert uid now hasInjury]
  else []

/-- `_detect_team_conflict` (the ego-indicator scan only feeds the unmodelled
context bag). -/
def detectTeamConflict (m : List Char) (uid : String) (now : ℚ) :
    List SafetyAlert :=
  if conflictIndicators.any (fun w => strContains m w) then
    [teamConflictAlert uid now]
  else []

/-- `_detect_reward_misuse`. -/
def detectRewardMisuse (m : List Char) (uid : String) (now : ℚ) :
    List SafetyAlert :=
  let hasGaming := gamingIndicators.any (fun w => strContains m w)
  let hasRewardFocus := rewardFocus.any (fun w => strContains m w)
  if hasGaming || (hasRewardFocus && strContains m "easy".toList) then
    [rewardMisuseAlert uid now]
  else []

/-- `_detect_language_barriers`. -/
def detectLanguageBarriers (m : List Char) (uid : String) (now : ℚ) :
    List SafetyAlert :=
  let complexityScore := complexityPatterns.countP (fun ws => hasWordMatch ws m)
  let hasConfusion := nonNativeIndicators.any (fun w => strContains m w)
  if complexityScore > 2 || hasConfusion then [languageBarrierAlert uid now]
  else []

/-- One iteration of the `_detect_false_reporting` loop for a single
self-rating pattern. -/
def frStep (m : List Char) (uid : String) (prof : UserProfile) (now : ℚ)
    (alerts : List SafetyAlert) (pat : List Char × List Char) :
    List SafetyAlert :=
  match searchLitNum pat.1 pat.2 m with
  | some selfRating =>
    if prof.performanceMetrics ≠ [] then
      let avgPerformance : ℚ :=
        (prof.performanceMetrics.map (·.2)).sum /
          (prof.performanceMetrics.length : ℚ)
      if (selfRating : ℚ) > avgPerformance * 2 then
        alerts ++ [falseReportingAlert uid now]
      else alerts
    else alerts
  | none => alerts

/-- `_detect_false_reporting`. -/
def detectFalseReporting (m : List Char) (uid : String) (prof : UserProfile)
    (now : ℚ) : List SafetyAlert :=
  ratingPatterns.foldl (frStep m uid prof now) []

/-- `_detect_burnout_vs_laziness`. -/
def detectBurnoutVsLaziness (m : List Char) (uid : String) (now : ℚ) :
    List SafetyAlert :=
  let burnoutScore := hitCount burnoutIndicatorList m
  let lazinessScore := hitCount lazinessIndicatorList m
  if burnoutScore > lazinessScore && burnoutScore > 0 then
    [burnoutWarnAlert uid now]
  else if lazinessScore > burnoutScore && lazinessScore > 0 then
    [lazinessInfoAlert uid now]
  else []

/-- `SafetyMonitor.monitor_message`: lowercases the message, runs the twelve
detectors in order, extends the internal alert log with the produced alerts
and returns them. -/
def monitorMessage (message : List Char) (uid : String) (prof : UserProfile)
    (mon : SafetyMonitor) (now : ℚ) : List SafetyAlert × SafetyMonitor :=
  let m := pyLower message
  let a1 := detectOvertraining m uid mon.thresholds now
  let a2 := detectDataInconsistency m uid prof now
  let le := detectLowEngagement m uid mon.engagementMetrics now
  let a4 := detectResistance m uid mon.thresholds now
  let a5 := detectCreativityMisuse m uid now
  let a6 := detectMentalHealthRisks m uid mon.thresholds now
  let a7 := detectPerformanceDrop m uid now
  let a8 := detectTeamConflict m uid now
  let a9 := detectRewardMisuse m uid now
  let a10 := detectLanguageBarriers m uid now
  let a11 := detectFalseReporting m uid prof now
  let a12 := detectBurnoutVsLaziness m uid now
  let alerts :=
    a1 ++ a2 ++ le.1 ++ a4 ++ a5 ++ a6 ++ a7 ++ a8 ++ a9 ++ a10 ++ a11 ++ a12
  (alerts,
   { mon with alerts := mon.alerts ++ alerts, engagementMetrics := le.2 })

/-- `SafetyMonitor.get_escalation_alerts`. -/
def getEscalationAlerts (mon : SafetyMonitor) : List SafetyAlert :=
  mon.alerts.filter (·.escalationRequired)

/-- `SafetyMonitor.clear_user_alerts`. -/
def clearUserAlerts (mon : SafetyMonitor) (uid : String) : SafetyMonitor :=
  { mon with alerts := mon.alerts.filter (fun a => !(a.userId = uid : Bool)) }

/-- The fixed recommendation string for one alert category
(`get_safety_recommendations`). -/
def recommendationFor : SafetyCategory → String
  | .OVERTRAINING => "Implement mandatory rest periods and reduce training intensity"
  | .MENTAL_HEALTH => "Prioritize mental health support and consider professional referral"
  | .PERFORMANCE_DROP => "Focus on recovery and reduce high-intensity coaching"
  | .LOW_ENGAGEMENT => "Adapt coaching style to be more engaging and supportive"
  | .RESISTANCE => "Provide evidence-based reasoning and address concerns directly"
  | .CREATIVITY_MISUSE => "Validate safety before encouraging creative approaches"
  | .TEAM_CONFLICT => "Promote fair motivation without ego inflation"
  | .REWARD_MISUSE => "Adjust incentives to focus on genuine progress"
  | .LANGUAGE_BARRIER => "Simplify language and provide clear examples"
  | .FALSE_REPORTING => "Request objective measures and provide honest feedback"
  | .BURNOUT_LAZINESS => "Distinguish between burnout and discipline issues"
  | .DATA_INCONSISTENCY => "Verify data accuracy and seek clarification"

/-- First-seen-order deduplication (Python dict grouping). -/
def dedupKeepFirstAux [DecidableEq α] (seen : List α) : List α → List α
  | [] => []
  | a :: rest =>
    if a ∈ seen then dedupKeepFirstAux seen rest
    else a :: dedupKeepFirstAux (a :: seen) rest

def dedupKeepFirst [DecidableEq α] (l : List α) : List α :=
  dedupKeepFirstAux [] l

/-- `SafetyMonitor.get_safety_recommendations`. -/
def getSafetyRecommendations (mon : SafetyMonitor) (uid : String) : List String :=
  let userAlerts := mon.alerts.filter (fun a => a.userId = uid)
  if userAlerts = [] then
    ["No safety concerns detected. Continue normal coaching."]
  else
    (dedupKeepFirst (userAlerts.map (·.category))).map recommendationFor

/-! ### Sports extractors (`sports.py`) -/

/-- Match `(?:scored|made|got)\s+(\d+)\s+(?:goals?|points?|runs?|baskets?)`
at the start of `s`.  Greedy `\s+`/`\d+` runs are maximal; the optional
trailing `s` of the unit words cannot affect whether the search succeeds,
so a prefix check against the singular forms suffices. -/
def matchScoreAt (s : List Char) : Option Nat :=
  match ["scored", "made", "got"].findSome?
      (fun v => if listPrefixB v.toList s then some v.toList else none) with
  | none => none
  | some v =>
    let r1 := s.drop v.length
    let w1 := r1.takeWhile isWS
    let r2 := r1.drop w1.length
    let d := r2.takeWhile Char.isDigit
    let r3 := r2.drop d.length
    let w2 := r3.takeWhile isWS
    let r4 := r3.drop w2.length
    if !w1.isEmpty && !d.isEmpty && !w2.isEmpty &&
        (["goal", "point", "run", "basket"].any
          (fun u => listPrefixB u.toList r4)) then
      some (natOfDigits d)
    else none

/-- Match `(?:ran|swam|cycled|covered)\s+(\d+(?:\.\d+)?)\s+(?:km|kilometers|miles|meters|m)`
at the start of `s`. -/
def matchDistanceAt (s : List Char) : Option ℚ :=
  match ["ran", "swam", "cycled", "covered"].findSome?
      (fun v => if listPrefixB v.toList s then some v.toList else none) with
  | none => none
  | some v =>
    let r1 := s.drop v.length
    let w1 := r1.takeWhile isWS
    let r2 := r1.drop w1.length
    let d := r2.takeWhile Char.isDigit
    let r3 := r2.drop d.length
    let fr :=
      match r3 with
      | '.' :: t =>
        let fd := t.takeWhile Char.isDigit
        if fd.isEmpty then ([], r3) else (fd, t.drop fd.length)
      | _ => (([] : List Char), r3)
    let w2 := fr.2.takeWhile isWS
    let r5 := fr.2.drop w2.length
    if !w1.isEmpty && !d.isEmpty && !w2.isEmpty &&
        (["km", "kilometers", "miles", "meters", "m"].any
          (fun u => listPrefixB u.toList r5)) then
      some ((natOfDigits d : ℚ) +
        (natOfDigits fr.1 : ℚ) / ((10 : ℚ) ^ fr.1.length))
    else none

/-- Match `(?:finished in|time of|took me)\s+(\d+)(?::(\d+))?(?::(\d+))?\s*(?:hours?|...)?`
at the start of `s`; everything after the first digit group is optional,
and a lone number is interpreted as minutes. -/
def matchTimeAt (s : List Char) : Option Nat :=
  match ["finished in", "time of", "took me"].findSome?
      (fun v => if listPrefixB v.toList s then some v.toList else none) with
  | none => none
  | some v =>
    let r1 := s.drop v.length
    let w1 := r1.takeWhile isWS
    let r2 := r1.drop w1.length
    let d1 := r2.takeWhile Char.isDigit
    if w1.isEmpty || d1.isEmpty then none
    else
      let r3 := r2.drop d1.length
      let p2 :=
        match r3 with
        | ':' :: t =>
          let dd := t.takeWhile Char.isDigit
          if dd.isEmpty then (none, r3) else (some dd, t.drop dd.length)
        | _ => ((none : Option (List Char)), r3)
      let p3 :=
        match p2.2 with
        | ':' :: t =>
          let dd := t.takeWhile Char.isDigit
          if dd.isEmpty then (none, p2.2) else (some dd, t.drop dd.length)
        | _ => ((none : Option (List Char)), p2.2)
      let hours := natOfDigits d1
      let minutes := (p2.1.map natOfDigits).getD 0
      let seconds := (p3.1.map natOfDigits).getD 0
      if p2.1.isNone && p3.1.isNone then some (hours * 60)
      else some (hours * 3600 + minutes * 60 + seconds)

/-- `extract_performance_metrics` (sports.py): the metrics dictionary, in
insertion order `score`, `distance`, `time`. -/
def sportsMetrics (message : List Char) : List (String × ℚ) :=
  let m := pyLower message
  (match scanFirst matchScoreAt m with
   | some n => [(("score" : String), (n : ℚ))]
   | none => [])
  ++ (match scanFirst matchDistanceAt m with
      | some q => [(("distance" : String), q)]
      | none => [])
  ++ (match scanFirst matchTimeAt m with
      | some n => [(("time" : String), (n : ℚ))]
      | none => [])

/-- One keyword table of `extract_mental_state`: the first listed phrase
contained in the message wins. -/
def firstKeyMatch (pairs : List (List Char × Nat)) (m : List Char) : Option Nat :=
  pairs.findSome? (fun kv => if strContains m kv.1 then some kv.2 else none)

def confidenceKeywords : List (List Char × Nat) :=
  [("very confident".toList, 5), ("confident".toList, 4),
   ("somewhat confident".toList, 3), ("not very confident".toList, 2),
   ("unconfident".toList, 1), ("no confidence".toList, 0)]

def anxietyKeywords : List (List Char × Nat) :=
  [("extremely anxious".toList, 5), ("very anxious".toList, 4),
   ("anxious".toList, 3), ("somewhat anxious".toList, 2),
   ("a little anxious".toList, 1), ("not anxious".toList, 0),
   ("calm".toList, 0), ("relaxed".toList, 0)]

def focusKeywords : List (List Char × Nat) :=
  [("very focused".toList, 5), ("focused".toList, 4),
   ("somewhat focused".toList, 3), ("distracted".toList, 2),
   ("very distracted".toList, 1), ("cannot concentrate".toList, 0)]

def motivationKeywords : List (List Char × Nat) :=
  [("highly motivated".toList, 5), ("motivated".toList, 4),
   ("somewhat motivated".toList, 3), ("not very motivated".toList, 2),
   ("unmotivated".toList, 1), ("completely unmotivated".toList, 0)]

/-- `extract_mental_state` (sports.py): dimension values in insertion order
`confidence`, `anxiety`, `focus`, `motivation`. -/
def sportsMentalState (message : List Char) : List (String × Nat) :=
  let m := pyLower message
  (match firstKeyMatch confidenceKeywords m with
   | some v => [(("confidence" : String), v)]
   | none => [])
  ++ (match firstKeyMatch anxietyKeywords m with
      | some v => [(("anxiety" : String), v)]
      | none => [])
  ++ (match firstKeyMatch focusKeywords m with
      | some v => [(("focus" : String), v)]
      | none => [])
  ++ (match firstKeyMatch motivationKeywords m with
      | some v => [(("motivation" : String), v)]
      | none => [])

/-! ### Extraction pipeline and user memory (`memory.py`) -/

/-- `UserMemory.add_insight`. -/
def addInsight (p : UserProfile) (text : String) (now : ℚ) : UserProfile :=
  { p with insights := p.insights ++ [⟨text, now⟩] }

/-- `UserMemory.update_progress`: stores the value clamped to `[0, 1]`. -/
def updateProgress (p : UserProfile) (goal : List Char) (value : ℚ) :
    UserProfile :=
  { p with progress := alistSet p.progress goal (min (max value 0) 1) }

def goalKeywords : List (List Char) := strsToLists
  ["goal", "want to", "achieve", "improve", "learn", "aspire", "aim"]

/-- The candidate goal string `_extract_goals` computes for a message: the
substring after the first matching keyword up to the next period, stripped;
`none` when no keyword matches or the candidate is empty. -/
def extractedGoal (message : List Char) : Option (List Char) :=
  let lower := pyLower message
  match goalKeywords.findSome? (fun k =>
      match findIdx k lower with
      | some i => some (k, i)
      | none => none) with
  | none => none
  | some ki =>
    let goalStart := ki.2 + ki.1.length
    let goalEnd := (findFrom lower ['.'] goalStart).getD lower.length
    let potentialGoal := pyStrip ((message.drop goalStart).take (goalEnd - goalStart))
    if potentialGoal = [] then none else some potentialGoal

/-- `_extract_goals`: at most one goal per message; duplicates discarded; a
new goal initialises its progress to `0.0` and appends an insight. -/
def extractGoals (p : UserProfile) (message : List Char) (now : ℚ) :
    UserProfile :=
  match extractedGoal message with
  | none => p
  | some g =>
    if g ∈ p.goals then p
    else
      { p with
        goals := p.goals ++ [g],
        progress := alistSet p.progress g 0,
        insights := p.insights ++ [⟨"New goal identified: " ++ String.mk g, now⟩] }

def preferencePhrases : List (List Char × String) :=
  [("i prefer".toList, "preference"), ("i like".toList, "like"),
   ("i enjoy".toList, "enjoy"), (aw "i don" "t like", "dislike"),
   ("i hate".toList, "dislike"), ("i love".toList, "like")]

/-- One step of `_extract_preferences` for a single (phrase, category) pair. -/
def prefStep (message lower : List Char)
    (prefs : List (String × List (List Char))) (pc : List Char × String) :
    List (String × List (List Char)) :=
  match findIdx pc.1 lower with
  | none => prefs
  | some i =>
    let prefStart := i + pc.1.length
    let prefEnd := (findFrom lower ['.'] prefStart).getD lower.length
    let preference := pyStrip ((message.drop prefStart).take (prefEnd - prefStart))
    if preference = [] then prefs
    else
      let cur := (alistGet prefs pc.2).getD []
      if preference ∈ cur then prefs
      else alistSet prefs pc.2 (cur ++ [preference])

/-- `_extract_preferences`. -/
def extractPreferences (p : UserProfile) (message lower : List Char) :
    UserProfile :=
  { p with preferences := preferencePhrases.foldl (prefStep message lower) p.preferences }

def positiveEmotions : List (List Char) := strsToLists
  ["happy", "excited", "proud", "satisfied", "confident", "motivated"]

def negativeEmotions : List (List Char) := strsToLists
  ["frustrated", "disappointed", "anxious", "stressed", "overwhelmed", "stuck"]

/-- The insight text generated for one found emotion in
`_extract_emotions_and_insights`. -/
def emotionInsightText (message lower emotion : List Char) (positive : Bool) :
    String :=
  let emotionIdx := (findIdx emotion lower).getD 0
  let startIdx :=
    match rfindChar '.' lower emotionIdx with
    | some p => p + 1
    | none => 0
  let endIdx := (findFrom lower ['.'] emotionIdx).getD lower.length
  let context := pyStrip ((message.drop startIdx).take (endIdx - startIdx))
  if positive then
    "User feels " ++ String.mk emotion ++ " about: " ++ String.mk context
  else
    "User is experiencing " ++ String.mk emotion ++ " regarding: " ++ String.mk context

/-- `_extract_emotions_and_insights`. -/
def extractEmotionsAndInsights (p : UserProfile) (message lower : List Char)
    (now : ℚ) : UserProfile :=
  let found :=
    (positiveEmotions.filter (fun e => strContains lower e)).map (fun e => (e, true))
    ++ (negativeEmotions.filter (fun e => strContains lower e)).map (fun e => (e, false))
  { p with
    insights := p.insights ++
      found.map (fun ep => ⟨emotionInsightText message lower ep.1 ep.2, now⟩) }

/-- `_extract_progress_updates`: the function body in the source is empty
(the progress-update logic physically sits at the end of
`_extract_mental_state`). -/
def extractProgressUpdates (p : UserProfile) (_message _lower : List Char) :
    UserProfile := p

/-- `_extract_performance_metrics`. -/
def extractPerformanceMetrics (p : UserProfile) (message : List Char) :
    UserProfile :=
  { p with
    performanceMetrics :=
      (sportsMetrics message).foldl (fun d kv => alistSet d kv.1 kv.2)
        p.performanceMetrics }

def progressKeywords : List (List Char) := strsToLists
  ["progress", "completed", "finished", "accomplished", "achieved"]

def containsProgressKeyword (lower : List Char) : Bool :=
  progressKeywords.any (fun k => strContains lower k)

/-- The insight text reporting a goal's new completion percentage. -/
def progressInsightText (goal : List Char) (newProgress : ℚ) : String :=
  "Progress update: " ++ String.mk goal ++ " is now at " ++
    intDecString (pyInt (newProgress * 100)) ++ "% completion"

/-- Update for the first goal satisfying the loop condition: bump progress
by `0.2` capped at `1.0` (via `update_progress`, which clamps again) and
append the percentage insight. -/
def bumpGoalProgress (p : UserProfile) (goal : List Char) (now : ℚ) :
    UserProfile :=
  let currentProgress := (alistGet p.progress goal).getD 0
  let newProgress := min (currentProgress + 1/5) 1
  let p' := updateProgress p goal newProgress
  addInsight p' (progressInsightText goal newProgress) now

/-- The `for goal in goals` loop of the progress-update block: the condition
checks the goal's own lowercase word tokens for containment in itself, and
breaks after the first goal that satisfies it. -/
def progressLoop (contains : Bool) (now : ℚ) (p : UserProfile) :
    List (List Char) → UserProfile
  | [] => p
  | g :: rest =>
    let gl := pyLower g
    if (splitWS gl).any (fun w => strContains gl w) && contains then
      bumpGoalProgress p g now
    else progressLoop contains now p rest

/-- The progress-update block at the end of `_extract_mental_state`
(memory.py lines 253-273). -/
def progressUpdateBlock (p : UserProfile) (lower : List Char) (now : ℚ) :
    UserProfile :=
  let contains := containsProgressKeyword lower
  if contains && !p.goals.isEmpty then progressLoop contains now p p.goals
  else p

/-- `_extract_mental_state`: the mental-state dictionary update followed by
the progress-update block that sits in the same function body. -/
def extractMentalState (p : UserProfile) (message lower : List Char)
    (now : ℚ) : UserProfile :=
  let p1 :=
    { p with
      mentalState :=
        (sportsMentalState message).foldl (fun d kv => alistSet d kv.1 kv.2)
          p.mentalState }
  progressUpdateBlock p1 lower now

/-- `_update_user_profile`: the six extractors in source order. -/
def updateUserProfile (p : UserProfile) (message : List Char) (now : ℚ) :
    UserProfile :=
  let lower := pyLower message
  let p1 := extractGoals p message now
  let p2 := extractPreferences p1 message lower
  let p3 := extractEmotionsAndInsights p2 message lower now
  let p4 := extractProgressUpdates p3 message lower
  let p5 := extractPerformanceMetrics p4 message
  extractMentalState p5 message lower now

/-- Flattening of an alert into the profile's `safety_alerts` list. -/
def flattenAlert (a : SafetyAlert) : StoredAlert :=
  ⟨a.category.value, a.level.value, a.message, a.timestamp,
   a.recommendedAction, a.escalationRequired⟩

/-- The insight derived from one safety alert. -/
def safetyInsightText (a : SafetyAlert) : String :=
  "Safety Alert (" ++ a.level.value ++ "): " ++ a.message

/-- `UserMemory._monitor_safety`: run the monitor, fold the alerts and the
derived insights into the profile, replace the recommendations, and append
the urgent insight when any stored alert requires escalation. -/
def monitorSafety (uid : String) (p : UserProfile) (mon : SafetyMonitor)
    (message : List Char) (now : ℚ) : UserProfile × SafetyMonitor :=
  let r := monitorMessage message uid p mon now
  let p1 :=
    { p with
      safetyAlerts := p.safetyAlerts ++ r.1.map flattenAlert,
      insights := p.insights ++ r.1.map (fun a => (⟨safetyInsightText a, now⟩ : Insight)) }
  let p2 := { p1 with safetyRecommendations := getSafetyRecommendations r.2 uid }
  let p3 :=
    if !(getEscalationAlerts r.2).isEmpty then
      addInsight p2 "URGENT: Safety escalation required - immediate attention needed" now
    else p2
  (p3, r.2)

/-- `UserMemory` state. -/
structure UserMemory where
  userId : String
  conversationHistory : List ConvEntry
  userProfile : UserProfile
  safetyMonitor : SafetyMonitor
deriving DecidableEq, Repr

def UserMemory.mkNew (uid : String) : UserMemory :=
  ⟨uid, [], UserProfile.init, SafetyMonitor.init⟩

/-- `UserMemory.add_message` with history cap `cap`
(`config.MEMORY_MAX_ENTRIES`) and current wall-clock `now`. -/
def addMessage (um : UserMemory) (role : String) (content : List Char)
    (now : ℚ) (cap : Nat) : UserMemory :=
  let h1 := um.conversationHistory ++ [⟨role, content, now⟩]
  let h2 := if h1.length > cap then pySliceLast cap h1 else h1
  if role = "user" then
    let p1 := updateUserProfile um.userProfile content now
    let r := monitorSafety um.userId p1 um.safetyMonitor content now
    { um with conversationHistory := h2, userProfile := r.1, safetyMonitor := r.2 }
  else { um with conversationHistory := h2 }

/-- `UserMemory.get_conversation_history`. -/
def getConversationHistory (um : UserMemory) : List ConvEntry :=
  um.conversationHistory

/-- The record returned by `UserMemory.get_safety_status`. -/
structure SafetyStatus where
  totalAlerts : Nat
  recentAlerts : Nat
  criticalAlerts : Nat
  recommendations : List String
  escalationRequired : Bool
deriving DecidableEq, Repr

/-- `UserMemory.get_safety_status` at wall-clock `now`. -/
def getSafetyStatus (um : UserMemory) (now : ℚ) : SafetyStatus :=
  let recent := um.userProfile.safetyAlerts.filter
    (fun a => now - a.timestamp < 3600)
  let critical := recent.filter
    (fun a => a.level = "critical" || a.level = "emergency")
  { totalAlerts := um.userProfile.safetyAlerts.length,
    recentAlerts := recent.length,
    criticalAlerts := critical.length,
    recommendations := um.userProfile.safetyRecommendations,
    escalationRequired := critical.length > 0 }

/-- Operations on a `UserMemory` considered by the invariant claims. -/
inductive MemOp
  | addMsg (role : String) (content : List Char) (now : ℚ)
  | updProg (goal : List Char) (value : ℚ)
  | addIns (text : String) (now : ℚ)

/-- Apply one operation. -/
def applyOp (cap : Nat) (um : UserMemory) : MemOp → UserMemory
  | .addMsg role content now => addMessage um role content now cap
  | .updProg goal value => { um with userProfile := updateProgress um.userProfile goal value }
  | .addIns text now => { um with userProfile := addInsight um.userProfile text now }

/-- Apply a sequence of operations. -/
def applyOps (cap : Nat) (um : UserMemory) : List MemOp → UserMemory
  | [] => um
  | op :: rest => applyOps cap (applyOp cap um op) rest

/-- Fold a list of (role, content, timestamp) messages through `add_message`. -/
def toEntry (m : String × List Char × ℚ) : ConvEntry := ⟨m.1, m.2.1, m.2.2⟩

def runAddMessages (cap : Nat) (um : UserMemory) :
    List (String × List Char × ℚ) → UserMemory
  | [] => um
  | m :: rest => runAddMessages cap (addMessage um m.1 m.2.1 m.2.2 cap) rest

/-! ### Claim C1: false-reporting detector -/

/-- Does one self-rating pattern fire for message `m` against `prof`'s
performance metrics: the pattern matches and the extracted rating strictly
exceeds twice the arithmetic mean of the metrics. -/
def ratingFires (prof : UserProfile) (m : List Char)
    (pat : List Char × List Char) : Bool :=
  match searchLitNum pat.1 pat.2 m with
  | some r =>
    decide ((r : ℚ) >
      (prof.performanceMetrics.map (·.2)).sum /
        (prof.performanceMetrics.length : ℚ) * 2)
  | none => false

theorem frStep_eq (m : List Char) (uid : String) (prof : UserProfile)
    (now : ℚ) (hpm : prof.performanceMetrics ≠ []) (alerts : List SafetyAlert)
    (pat : List Char × List Char) :
    frStep m uid prof now alerts pat =
      if ratingFires prof m pat then alerts ++ [falseReportingAlert uid now]
      else alerts := by
  unfold frStep ratingFires
  rcases hsp : searchLitNum pat.1 pat.2 m with _ | r
  · simp
  · by_cases hr : (r : ℚ) >
      (prof.performanceMetrics.map (·.2)).sum /
        (prof.performanceMetrics.length : ℚ) * 2 <;>
      simp [hpm, hr]

theorem detectFalseReporting_foldl (m : List Char) (uid : String)
    (prof : UserProfile) (now : ℚ) (hpm : prof.performanceMetrics ≠ [])
    (pats : List (List Char × List Char)) (acc : List SafetyAlert) :
    pats.foldl (frStep m uid prof now) acc
    = acc ++ List.replicate (pats.countP (ratingFires prof m))
        (falseReportingAlert uid now) := by
  induction pats generalizing acc with
  | nil => simp
  | cons pat rest ih =>
    rw [List.foldl_cons, frStep_eq m uid prof now hpm, List.countP_cons]
    by_cases hf : ratingFires prof m pat
    · simp only [hf, if_true, ih, List.append_assoc, List.singleton_append]
      simp [hf, List.replicate_succ]
    · simp [hf, ih]

/-- C1 (counterexample): with profile performance metrics exactly
`{"score": 5}` and the message `"I would say 10/10"`, the false-reporting
detector emits no alert at all, because the extracted self-rating 10 does
not strictly exceed 2 × 5 = 10, contradicting the claim that a
FALSE_REPORTING WARNING fires on this input. -/
theorem c1_counterexample :
    detectFalseReporting (pyLower "I would say 10/10".toList) "athlete"
      { UserProfile.init with performanceMetrics := [(("score" : String), (5 : ℚ))] }
      0 = [] := by decide

/-- C1 (amended): whenever the profile's performance-metrics mapping is
non-empty, the false-reporting detector emits exactly one FALSE_REPORTING
WARNING (without escalation) per self-rating pattern whose extracted rating
STRICTLY exceeds twice the arithmetic mean of the metrics — in particular,
for metrics `{"score": 5}` and message `"I would say 10/10"` no alert fires
since 10 = 2 × 5 is not a strict excess. -/
theorem c1_false_reporting_strict (m : List Char) (uid : String)
    (prof : UserProfile) (now : ℚ) (hpm : prof.performanceMetrics ≠ []) :
    detectFalseReporting m uid prof now =
      List.replicate (ratingPatterns.countP (ratingFires prof m))
        (falseReportingAlert uid now) := by
  have h := detectFalseReporting_foldl m uid prof now hpm ratingPatterns []
  simpa [detectFalseReporting] using h

/-- Witness for C1 (amended): with metrics `{"score": 4}` the message
`"i would say 10/10"` fires exactly one pattern (10 > 2 × 4). -/
theorem c1_false_reporting_strict_witness :
    ([(("score" : String), (4 : ℚ))] : List (String × ℚ)) ≠ [] ∧
    detectFalseReporting (pyLower "I would say 10/10".toList) "athlete"
      { UserProfile.init with performanceMetrics := [(("score" : String), (4 : ℚ))] } 0 =
      List.replicate
        ((ratingPatterns.countP (ratingFires
          { UserProfile.init with performanceMetrics := [(("score" : String), (4 : ℚ))] }
          (pyLower "I would say 10/10".toList))))
        (falseReportingAlert "athlete" 0) :=
  ⟨by decide,
   c1_false_reporting_strict (pyLower "I would say 10/10".toList) "athlete"
     { UserProfile.init with performanceMetrics := [(("score" : String), (4 : ℚ))] }
     0 (by decide)⟩

/-! ### Claim C5: burnout vs laziness -/

/-- C5: for every (lowercased) message, the burnout-vs-laziness detector
emits exactly one BURNOUT_LAZINESS WARNING with escalation required when
the burnout-indicator hit count strictly exceeds the laziness-indicator
hit count and is positive; exactly one INFO without escalation in the
symmetric case; and nothing when the counts are equal. -/
theorem c5_burnout_vs_laziness (m : List Char) (uid : String) (now : ℚ) :
    (hitCount burnoutIndicatorList m > hitCount lazinessIndicatorList m ∧
        0 < hitCount burnoutIndicatorList m →
      detectBurnoutVsLaziness m uid now = [burnoutWarnAlert uid now]) ∧
    (hitCount lazinessIndicatorList m > hitCount burnoutIndicatorList m ∧
        0 < hitCount lazinessIndicatorList m →
      detectBurnoutVsLaziness m uid now = [lazinessInfoAlert uid now]) ∧
    (hitCount burnoutIndicatorList m = hitCount lazinessIndicatorList m →
      detectBurnoutVsLaziness m uid now = []) ∧
    (burnoutWarnAlert uid now).category = SafetyCategory.BURNOUT_LAZINESS ∧
    (burnoutWarnAlert uid now).level = SafetyLevel.WARNING ∧
    (burnoutWarnAlert uid now).escalationRequired = true ∧
    (lazinessInfoAlert uid now).category = SafetyCategory.BURNOUT_LAZINESS ∧
    (lazinessInfoAlert uid now).level = SafetyLevel.INFO ∧
    (lazinessInfoAlert uid now).escalationRequired = false := by
  refine ⟨?_, ?_, ?_, rfl, rfl, rfl, rfl, rfl, rfl⟩
  · rintro ⟨hgt, hpos⟩
    simp [detectBurnoutVsLaziness, hgt, hpos]
  · rintro ⟨hgt, hpos⟩
    have hnot : ¬(hitCount burnoutIndicatorList m > hitCount lazinessIndicatorList m) :=
      by omega
    simp [detectBurnoutVsLaziness, hnot, hgt, hpos]
  · intro heq
    simp [detectBurnoutVsLaziness, heq]

/-- Witness for C5: `"i am exhausted"` has one burnout hit and no laziness
hit, so exactly the WARNING alert is produced. -/
theorem c5_burnout_vs_laziness_witness :
    (hitCount burnoutIndicatorList "i am exhausted".toList >
        hitCount lazinessIndicatorList "i am exhausted".toList ∧
      0 < hitCount burnoutIndicatorList "i am exhausted".toList) ∧
    detectBurnoutVsLaziness "i am exhausted".toList "athlete" 0 =
      [burnoutWarnAlert "athlete" 0] :=
  ⟨by decide,
   (c5_burnout_vs_laziness "i am exhausted".toList "athlete" 0).1 (by decide)⟩

/-! ### Claim C7: no duplicate goals, progress initialised once -/

/-- C7: if two messages extract the identical goal string `g` and `g` is
not yet among the profile's goals, then after processing the first message
`g` occurs exactly once in the goals list with progress initialised to
`0.0`, and processing the second message on ANY profile that already
contains `g` (in particular the one just produced, even after later
progress updates) leaves the profile completely unchanged — so the goal is
never duplicated and its progress entry is never reset. -/
theorem c7_goal_dedup (p : UserProfile) (m1 m2 g : List Char) (now1 now2 : ℚ)
    (h1 : extractedGoal m1 = some g) (h2 : extractedGoal m2 = some g)
    (hg : g ∉ p.goals) :
    (extractGoals p m1 now1).goals.count g = 1 ∧
    alistGet (extractGoals p m1 now1).progress g = some 0 ∧
    ∀ q : UserProfile, g ∈ q.goals → extractGoals q m2 now2 = q := by
  refine ⟨?_, ?_, ?_⟩
  · simp [extractGoals, h1, hg, List.count_eq_zero.mpr hg]
  · simp [extractGoals, h1, hg, alistGet_set_self]
  · intro q hq
    simp [extractGoals, h2, hq]

/-- Witness for C7: the message `"my goal is to win"` extracts the goal
`"is to win"`; from the fresh profile the goal is stored once with
progress `0.0`, and re-processing the same message is a no-op. -/
theorem c7_goal_dedup_witness :
    (extractedGoal "my goal is to win".toList = some "is to win".toList ∧
      "is to win".toList ∉ UserProfile.init.goals) ∧
    (extractGoals UserProfile.init "my goal is to win".toList 1).goals.count
      "is to win".toList = 1 ∧
    alistGet (extractGoals UserProfile.init "my goal is to win".toList 1).progress
      "is to win".toList = some 0 ∧
    extractGoals (extractGoals UserProfile.init "my goal is to win".toList 1)
      "my goal is to win".toList 2 =
      extractGoals UserProfile.init "my goal is to win".toList 1 :=
  ⟨⟨by decide, by decide⟩,
   (c7_goal_dedup UserProfile.init "my goal is to win".toList
      "my goal is to win".toList "is to win".toList 1 2 (by decide) (by decide)
      (by decide)).1,
   (c7_goal_dedup UserProfile.init "my goal is to win".toList
      "my goal is to win".toList "is to win".toList 1 2 (by decide) (by decide)
      (by decide)).2.1,
   (c7_goal_dedup UserProfile.init "my goal is to win".toList
      "my goal is to win".toList "is to win".toList 1 2 (by decide) (by decide)
      (by decide)).2.2
     (extractGoals UserProfile.init "my goal is to win".toList 1) (by decide)⟩

/-! ### Claim C8: get_safety_status -/

/-- C8: with an empty stored `safety_alerts` list, `get_safety_status`
returns zero totals and no escalation; and in every state the returned
`escalation_required` is true exactly when the number of stored alerts
that are both within the last 3600 seconds and at level critical or
emergency is positive.  The embedding is a pure function of the memory
state, so no stored state is modified. -/
theorem c8_safety_status (um : UserMemory) (now : ℚ) :
    (um.userProfile.safetyAlerts = [] →
      getSafetyStatus um now =
        { totalAlerts := 0, recentAlerts := 0, criticalAlerts := 0,
          recommendations := um.userProfile.safetyRecommendations,
          escalationRequired := false }) ∧
    ((getSafetyStatus um now).escalationRequired = true ↔
      0 < (um.userProfile.safetyAlerts.filter (fun a =>
            decide (now - a.timestamp < 3600) &&
            (a.level = "critical" || a.level = "emergency"))).length) := by
  constructor
  · intro hempty
    simp [getSafetyStatus, hempty]
  · simp only [getSafetyStatus, List.filter_filter]
    simp [List.length_pos, decide_eq_true_eq]
    constructor
    · rintro ⟨a, ha, hlvl, ht⟩
      exact ⟨a, ha, ht, fun hnc => hlvl.resolve_left hnc⟩
    · rintro ⟨a, ha, ht, himp⟩
      by_cases hc : a.level = "critical"
      · exact ⟨a, ha, Or.inl hc, ht⟩
      · exact ⟨a, ha, Or.inr (himp hc), ht⟩

/-- Witness for C8: a fresh memory has no stored alerts, hence the
all-zero, non-escalated status. -/
theorem c8_safety_status_witness :
    (UserMemory.mkNew "u").userProfile.safetyAlerts = [] ∧
    getSafetyStatus (UserMemory.mkNew "u") 0 =
      { totalAlerts := 0, recentAlerts := 0, criticalAlerts := 0,
        recommendations := (UserMemory.mkNew "u").userProfile.safetyRecommendations,
        escalationRequired := false } :=
  ⟨by decide, (c8_safety_status (UserMemory.mkNew "u") 0).1 (by decide)⟩

/-! ### Claim C3: conversation-history cap -/

theorem addMessage_history (um : UserMemory) (role : String)
    (content : List Char) (now : ℚ) (cap : Nat) :
    (addMessage um role content now cap).conversationHistory =
      (if (um.conversationHistory ++ [(⟨role, content, now⟩ : ConvEntry)]).length > cap then
        pySliceLast cap (um.conversationHistory ++ [(⟨role, content, now⟩ : ConvEntry)])
      else um.conversationHistory ++ [(⟨role, content, now⟩ : ConvEntry)]) := by
  by_cases h : role = "user" <;> simp [addMessage, h]

theorem takeLast_takeLast_append (n : Nat) (l r : List α) :
    takeLast n (takeLast n l ++ r) = takeLast n (l ++ r) := by
  by_cases h : l.length ≤ n
  · simp [takeLast, Nat.sub_eq_zero_of_le h]
  · push_neg at h
    have hk : l.length - n ≤ l.length := Nat.sub_le _ _
    have hsplit : (l ++ r).drop (l.length - n) = l.drop (l.length - n) ++ r := by
      rw [List.drop_append_eq_append_drop, Nat.sub_eq_zero_of_le hk,
        List.drop_zero]
    unfold takeLast
    rw [← hsplit, List.drop_drop]
    congr 1
    simp only [List.length_append, List.length_drop]
    omega

theorem addMessage_history_le (um : UserMemory) (role : String)
    (content : List Char) (now : ℚ) (cap : Nat) (hcap : 1 ≤ cap)
    (hle : um.conversationHistory.length ≤ cap) :
    (addMessage um role content now cap).conversationHistory =
      takeLast cap (um.conversationHistory ++ [⟨role, content, now⟩]) ∧
    (addMessage um role content now cap).conversationHistory.length ≤ cap := by
  rw [addMessage_history]
  have hlen : (um.conversationHistory ++ [(⟨role, content, now⟩ : ConvEntry)]).length
      = um.conversationHistory.length + 1 := by simp
  set h1 := um.conversationHistory ++ [(⟨role, content, now⟩ : ConvEntry)] with hh1
  by_cases hgt : h1.length > cap
  · have hcap0 : cap ≠ 0 := by omega
    simp only [hgt, if_true, pySliceLast, hcap0, if_false, takeLast]
    constructor
    · trivial
    · simp only [List.length_drop]
      omega
  · simp only [hgt, if_false, takeLast]
    have : h1.length - cap = 0 := by omega
    rw [this, List.drop_zero]
    exact ⟨rfl, by omega⟩

theorem runAddMessages_history (cap : Nat) (hcap : 1 ≤ cap)
    (msgs : List (String × List Char × ℚ)) :
    ∀ um : UserMemory, um.conversationHistory.length ≤ cap →
      (runAddMessages cap um msgs).conversationHistory =
        takeLast cap (um.conversationHistory ++ msgs.map toEntry) ∧
      (runAddMessages cap um msgs).conversationHistory.length ≤ cap := by
  induction msgs with
  | nil =>
    intro um hle
    simp only [runAddMessages, List.map_nil, List.append_nil, takeLast]
    rw [Nat.sub_eq_zero_of_le hle, List.drop_zero]
    exact ⟨rfl, hle⟩
  | cons m rest ih =>
    intro um hle
    obtain ⟨heq, hlen⟩ :=
      addMessage_history_le um m.1 m.2.1 m.2.2 cap hcap hle
    have hrec := ih (addMessage um m.1 m.2.1 m.2.2 cap) hlen
    simp only [runAddMessages]
    refine ⟨?_, hrec.2⟩
    rw [hrec.1, heq, takeLast_takeLast_append]
    congr 1
    simp [toEntry]

/-- C3 (counterexample): with the configured cap set to 0 (a legal value of
`MEMORY_MAX_ENTRIES`), one `add_message` call leaves a history of length 1,
exceeding the cap — Python's `history[-0:]` is the whole list, so the trim
never removes anything. -/
theorem c3_counterexample :
    ¬ ((addMessage (UserMemory.mkNew "u") "coach" "hi".toList 0 0).conversationHistory.length ≤ 0) := by
  decide

/-- C3 (amended): for every cap ≥ 1 (the default 10 included), after any
sequence of `add_message` calls from a fresh memory the history is exactly
the last `cap` appended entries in original order — in particular its
length never exceeds the cap, eviction is FIFO, and appending N > cap
messages yields exactly the last `cap` of them. -/
theorem c3_history_cap (cap : Nat) (hcap : 1 ≤ cap) (uid : String)
    (msgs : List (String × List Char × ℚ)) :
    getConversationHistory (runAddMessages cap (UserMemory.mkNew uid) msgs) =
      (msgs.map toEntry).drop (msgs.length - cap) ∧
    (getConversationHistory (runAddMessages cap (UserMemory.mkNew uid) msgs)).length ≤ cap := by
  obtain ⟨heq, hlen⟩ :=
    runAddMessages_history cap hcap msgs (UserMemory.mkNew uid) (by simp [UserMemory.mkNew])
  refine ⟨?_, hlen⟩
  rw [getConversationHistory, heq]
  simp [UserMemory.mkNew, takeLast]

/-- Witness for C3 (amended): cap 2, three coach messages — the history is
exactly the last two entries. -/
theorem c3_history_cap_witness :
    getConversationHistory (runAddMessages 2 (UserMemory.mkNew "u")
        [("coach", "a".toList, 1), ("coach", "b".toList, 2), ("coach", "c".toList, 3)]) =
      ([("coach", "a".toList, (1:ℚ)), ("coach", "b".toList, 2), ("coach", "c".toList, 3)].map toEntry).drop
        ([("coach", "a".toList, (1:ℚ)), ("coach", "b".toList, 2), ("coach", "c".toList, 3)].length - 2) ∧
    (getConversationHistory (runAddMessages 2 (UserMemory.mkNew "u")
        [("coach", "a".toList, 1), ("coach", "b".toList, 2), ("coach", "c".toList, 3)])).length ≤ 2 :=
  c3_history_cap 2 (by decide) "u"
    [("coach", "a".toList, 1), ("coach", "b".toList, 2), ("coach", "c".toList, 3)]

/-! ### Claim C6: progress bump for the first goal -/

theorem listPrefixB_refl [DecidableEq α] (s : List α) :
    listPrefixB s s = true := by
  induction s with
  | nil => rfl
  | cons a as ih => simp [listPrefixB, ih]

theorem listPrefixB_append [DecidableEq α] (w s t : List α)
    (h : listPrefixB w s = true) : listPrefixB w (s ++ t) = true := by
  induction w generalizing s with
  | nil => rfl
  | cons a as ih =>
    cases s with
    | nil => simp [listPrefixB] at h
    | cons b bs =>
      simp [listPrefixB] at h
      simp [listPrefixB, h.1, ih bs h.2]

theorem strContains_of_prefixB (s w : List Char)
    (h : listPrefixB w s = true) : strContains s w = true := by
  cases s with
  | nil => simp [strContains, findIdx, h]
  | cons c rest => simp [strContains, findIdx, h]

theorem strContains_cons (s w : List Char) (c : Char)
    (h : strContains s w = true) : strContains (c :: s) w = true := by
  simp only [strContains, findIdx]
  split
  · simp
  · simpa using h

theorem strContains_append_left (pre s w : List Char)
    (h : strContains s w = true) : strContains (pre ++ s) w = true := by
  induction pre with
  | nil => simpa using h
  | cons c cs ih => exact strContains_cons _ _ _ ih

theorem strContains_self (s : List Char) : strContains s s = true :=
  strContains_of_prefixB s s (listPrefixB_refl s)

theorem splitWSAux_mem_contains :
    ∀ (l cur w : List Char), w ∈ splitWSAux cur l →
      strContains (cur.reverse ++ l) w = true := by
  intro l
  induction l with
  | nil =>
    intro cur w hw
    simp only [splitWSAux] at hw
    split at hw
    · simp at hw
    · simp at hw
      subst hw
      simpa using strContains_self cur.reverse
  | cons c rest ih =>
    intro cur w hw
    simp only [splitWSAux] at hw
    split at hw
    · rcases List.mem_append.mp hw with hw1 | hw2
      · split at hw1
        · simp at hw1
        · simp at hw1
          subst hw1
          exact strContains_of_prefixB _ _
            (listPrefixB_append _ _ (c :: rest) (listPrefixB_refl cur.reverse))
      · have h1 := ih [] w hw2
        simp only [List.reverse_nil, List.nil_append] at h1
        exact strContains_append_left cur.reverse _ _
          (strContains_cons rest w c h1)
    · have h1 := ih (c :: cur) w hw
      rw [List.reverse_cons, List.append_assoc] at h1
      simpa using h1

theorem splitWS_mem_contains (s w : List Char) (h : w ∈ splitWS s) :
    strContains s w = true := by
  have := splitWSAux_mem_contains s [] w h
  simpa using this

/-- The loop condition of the progress-update block is a tautology for any
goal whose lowercase text contains at least one word: each of its own
word tokens is a substring of itself. -/
theorem goal_word_tautology (gl : List Char) (hw : splitWS gl ≠ []) :
    (splitWS gl).any (fun w => strContains gl w) = true := by
  cases hsp : splitWS gl with
  | nil => exact absurd hsp hw
  | cons w ws =>
    have hmem : w ∈ splitWS gl := by rw [hsp]; exact List.mem_cons_self _ _
    simp [List.any_cons, splitWS_mem_contains gl w hmem]

/-- C6: whenever the lowercased message contains a progress keyword and the
profile's goals list is non-empty (its first goal `g` having at least one
word, as every extracted goal does, and a current progress value ≥ 0, as
the clamping invariant guarantees), the progress-update block bumps exactly
the first goal's progress by 0.2 capped at 1.0, appends the percentage
insight, and changes no other goal's progress. -/
theorem c6_first_goal_bump (p : UserProfile) (lower : List Char) (now : ℚ)
    (g : List Char) (rest : List (List Char))
    (hk : containsProgressKeyword lower = true)
    (hg : p.goals = g :: rest)
    (hw : splitWS (pyLower g) ≠ [])
    (h0 : 0 ≤ (alistGet p.progress g).getD 0) :
    alistGet (progressUpdateBlock p lower now).progress g =
      some (min ((alistGet p.progress g).getD 0 + 1/5) 1) ∧
    (∀ g' : List Char, g' ≠ g →
      alistGet (progressUpdateBlock p lower now).progress g' =
        alistGet p.progress g') ∧
    (progressUpdateBlock p lower now).insights =
      p.insights ++
        [⟨progressInsightText g (min ((alistGet p.progress g).getD 0 + 1/5) 1), now⟩] ∧
    (progressUpdateBlock p lower now).goals = p.goals := by
  have hne : !p.goals.isEmpty = true := by simp [hg]
  have hblock : progressUpdateBlock p lower now = bumpGoalProgress p g now := by
    unfold progressUpdateBlock
    rw [hk]
    simp only [hg]
    unfold progressLoop
    simp [goal_word_tautology (pyLower g) hw]
  set oldp : ℚ := (alistGet p.progress g).getD 0 with ho
  have hnp0 : (0 : ℚ) ≤ min (oldp + 1/5) 1 := by
    apply le_min
    · linarith
    · norm_num
  have hnp1 : min (oldp + 1/5) 1 ≤ 1 := min_le_right _ _
  have hclamp : min (max (min (oldp + 1/5) 1) 0) 1 = min (oldp + 1/5) 1 := by
    rw [max_eq_left hnp0, min_eq_left hnp1]
  rw [hblock]
  unfold bumpGoalProgress updateProgress addInsight
  refine ⟨?_, ?_, ?_, ?_⟩
  · simp only [← ho, hclamp, alistGet_set_self]
  · intro g' hgne
    simp only [← ho, hclamp]
    exact alistGet_set_ne p.progress g g' _ hgne
  · simp [← ho]
  · rfl

/-- Witness for C6: one goal `"run"` at progress 0, message `"i completed it"`
— the goal moves to 20 % and the matching insight is appended. -/
theorem c6_first_goal_bump_witness :
    (containsProgressKeyword "i completed it".toList = true ∧
      splitWS (pyLower "run".toList) ≠ [] ∧
      (0 : ℚ) ≤ (alistGet ([( "run".toList, (0 : ℚ))]) "run".toList).getD 0) ∧
    alistGet (progressUpdateBlock
        { UserProfile.init with goals := ["run".toList], progress := [("run".toList, 0)] }
        "i completed it".toList 7).progress
      "run".toList =
      some (min ((alistGet ([( "run".toList, (0 : ℚ))]) "run".toList).getD 0 + 1/5) 1) ∧
    alistGet (progressUpdateBlock
        { UserProfile.init with goals := ["run".toList], progress := [("run".toList, 0)] }
        "i completed it".toList 7).progress
      "walk".toList = alistGet ([( "run".toList, (0 : ℚ))]) "walk".toList :=
  ⟨⟨by decide, by decide, by decide⟩,
   (c6_first_goal_bump
      { UserProfile.init with goals := ["run".toList], progress := [("run".toList, 0)] }
      "i completed it".toList 7 "run".toList [] (by decide) rfl (by decide)
      (by decide)).1,
   (c6_first_goal_bump
      { UserProfile.init with goals := ["run".toList], progress := [("run".toList, 0)] }
      "i completed it".toList 7 "run".toList [] (by decide) rfl (by decide)
      (by decide)).2.1 "walk".toList (by decide)⟩

/-! ### Claim C4: progress values stay within [0, 1] -/

/-- All progress values of a profile lie in the closed interval `[0, 1]`. -/
def ProgressInv (p : UserProfile) : Prop :=
  ∀ kv ∈ p.progress, (0 : ℚ) ≤ kv.2 ∧ kv.2 ≤ 1

theorem alistSet_progressInv (d : List (List Char × ℚ)) (k : List Char)
    (v : ℚ) (hinv : ∀ kv ∈ d, (0 : ℚ) ≤ kv.2 ∧ kv.2 ≤ 1)
    (hv0 : 0 ≤ v) (hv1 : v ≤ 1) :
    ∀ kv ∈ alistSet d k v, (0 : ℚ) ≤ kv.2 ∧ kv.2 ≤ 1 := by
  intro kv hkv
  rcases mem_alistSet d k v kv hkv with h | h
  · exact hinv kv h
  · rw [h]; exact ⟨hv0, hv1⟩

theorem clamp_mem_unit (v : ℚ) :
    (0 : ℚ) ≤ min (max v 0) 1 ∧ min (max v 0) 1 ≤ 1 :=
  ⟨le_min (le_max_right v 0) (by norm_num), min_le_right _ _⟩

theorem updateProgress_progressInv (p : UserProfile) (g : List Char)
    (v : ℚ) (h : ProgressInv p) : ProgressInv (updateProgress p g v) := by
  intro kv hkv
  exact alistSet_progressInv p.progress g _ h (clamp_mem_unit v).1
    (clamp_mem_unit v).2 kv hkv

theorem bumpGoalProgress_progressInv (p : UserProfile) (g : List Char)
    (now : ℚ) (h : ProgressInv p) :
    ProgressInv (bumpGoalProgress p g now) := by
  unfold bumpGoalProgress addInsight
  intro kv hkv
  exact updateProgress_progressInv p g _ h kv hkv

theorem progressLoop_progressInv (c : Bool) (now : ℚ) (p : UserProfile)
    (gs : List (List Char)) (h : ProgressInv p) :
    ProgressInv (progressLoop c now p gs) := by
  induction gs with
  | nil => exact h
  | cons g rest ih =>
    unfold progressLoop
    dsimp only
    split
    · exact bumpGoalProgress_progressInv p g now h
    · exact ih

theorem progressUpdateBlock_progressInv (p : UserProfile) (lower : List Char)
    (now : ℚ) (h : ProgressInv p) :
    ProgressInv (progressUpdateBlock p lower now) := by
  unfold progressUpdateBlock
  dsimp only
  split
  · exact progressLoop_progressInv _ now p p.goals h
  · exact h

theorem extractGoals_progressInv (p : UserProfile) (m : List Char) (now : ℚ)
    (h : ProgressInv p) : ProgressInv (extractGoals p m now) := by
  unfold extractGoals
  rcases extractedGoal m with _ | g
  · exact h
  · dsimp only
    split
    · exact h
    · intro kv hkv
      exact alistSet_progressInv p.progress g 0 h le_rfl (by norm_num) kv hkv

theorem updateUserProfile_progressInv (p : UserProfile) (m : List Char)
    (now : ℚ) (h : ProgressInv p) :
    ProgressInv (updateUserProfile p m now) := by
  unfold updateUserProfile extractPreferences extractEmotionsAndInsights
    extractProgressUpdates extractPerformanceMetrics extractMentalState
  exact progressUpdateBlock_progressInv _ _ now
    (extractGoals_progressInv p m now h)

theorem monitorSafety_progress (uid : String) (p : UserProfile)
    (mon : SafetyMonitor) (m : List Char) (now : ℚ) :
    (monitorSafety uid p mon m now).1.progress = p.progress := by
  simp only [monitorSafety, addInsight]
  split <;> rfl

theorem monitorSafety_goals (uid : String) (p : UserProfile)
    (mon : SafetyMonitor) (m : List Char) (now : ℚ) :
    (monitorSafety uid p mon m now).1.goals = p.goals := by
  simp only [monitorSafety, addInsight]
  split <;> rfl

theorem addMessage_progressInv (um : UserMemory) (role : String)
    (content : List Char) (now : ℚ) (cap : Nat)
    (h : ProgressInv um.userProfile) :
    ProgressInv (addMessage um role content now cap).userProfile := by
  unfold addMessage
  split
  · intro kv hkv
    rw [monitorSafety_progress] at hkv
    exact updateUserProfile_progressInv um.userProfile content now h kv hkv
  · exact h

theorem applyOp_progressInv (cap : Nat) (um : UserMemory) (op : MemOp)
    (h : ProgressInv um.userProfile) :
    ProgressInv (applyOp cap um op).userProfile := by
  cases op with
  | addMsg role content now => exact addMessage_progressInv um role content now cap h
  | updProg goal value => exact updateProgress_progressInv um.userProfile goal value h
  | addIns text now => exact h

theorem applyOps_progressInv (cap : Nat) (ops : List MemOp) :
    ∀ um : UserMemory, ProgressInv um.userProfile →
      ProgressInv ((applyOps cap um ops).userProfile) := by
  induction ops with
  | nil => intro um h; exact h
  | cons op rest ih =>
    intro um h
    exact ih _ (applyOp_progressInv cap um op h)

/-- C4: starting from a fresh memory, after any sequence of `add_message`,
`update_progress` and `add_insight` operations (with arbitrary string and
numeric arguments) every value stored in the profile's progress mapping
lies in the closed interval [0, 1]. -/
theorem c4_progress_clamped (uid : String) (cap : Nat) (ops : List MemOp) :
    ProgressInv ((applyOps cap (UserMemory.mkNew uid) ops).userProfile) := by
  apply applyOps_progressInv
  intro kv hkv
  simp [UserMemory.mkNew, UserProfile.init] at hkv

/-! ### Claim C10: every goal has a progress entry -/

/-- Every string in the profile's goals list is a key of its progress
mapping. -/
def GoalsProgressInv (p : UserProfile) : Prop :=
  ∀ g ∈ p.goals, (alistGet p.progress g).isSome = true

theorem extractGoals_goalsProgressInv (p : UserProfile) (m : List Char)
    (now : ℚ) (h : GoalsProgressInv p) :
    GoalsProgressInv (extractGoals p m now) := by
  unfold extractGoals
  rcases extractedGoal m with _ | g
  · exact h
  · dsimp only
    split
    · exact h
    · intro g' hg'
      simp only [List.mem_append, List.mem_singleton] at hg'
      rcases hg' with hg' | hg'
      · exact alistGet_set_isSome p.progress g g' 0 (h g' hg')
      · subst hg'
        simp [alistGet_set_self]

theorem updateProgress_goalsProgressInv (p : UserProfile) (goal : List Char)
    (v : ℚ) (h : GoalsProgressInv p) :
    GoalsProgressInv (updateProgress p goal v) := by
  intro g' hg'
  exact alistGet_set_isSome p.progress goal g' _ (h g' hg')

theorem bumpGoalProgress_goalsProgressInv (p : UserProfile) (g : List Char)
    (now : ℚ) (h : GoalsProgressInv p) :
    GoalsProgressInv (bumpGoalProgress p g now) := by
  unfold bumpGoalProgress addInsight
  intro g' hg'
  exact updateProgress_goalsProgressInv p g _ h g' hg'

theorem progressLoop_goalsProgressInv (c : Bool) (now : ℚ) (p : UserProfile)
    (gs : List (List Char)) (h : GoalsProgressInv p) :
    GoalsProgressInv (progressLoop c now p gs) := by
  induction gs with
  | nil => exact h
  | cons g rest ih =>
    unfold progressLoop
    dsimp only
    split
    · exact bumpGoalProgress_goalsProgressInv p g now h
    · exact ih

theorem progressUpdateBlock_goalsProgressInv (p : UserProfile)
    (lower : List Char) (now : ℚ) (h : GoalsProgressInv p) :
    GoalsProgressInv (progressUpdateBlock p lower now) := by
  unfold progressUpdateBlock
  dsimp only
  split
  · exact progressLoop_goalsProgressInv _ now p p.goals h
  · exact h

theorem updateUserProfile_goalsProgressInv (p : UserProfile) (m : List Char)
    (now : ℚ) (h : GoalsProgressInv p) :
    GoalsProgressInv (updateUserProfile p m now) := by
  unfold updateUserProfile extractPreferences extractEmotionsAndInsights
    extractProgressUpdates extractPerformanceMetrics extractMentalState
  exact progressUpdateBlock_goalsProgressInv _ _ now
    (extractGoals_goalsProgressInv p m now h)

theorem addMessage_goalsProgressInv (um : UserMemory) (role : String)
    (content : List Char) (now : ℚ) (cap : Nat)
    (h : GoalsProgressInv um.userProfile) :
    GoalsProgressInv (addMessage um role content now cap).userProfile := by
  unfold addMessage
  split
  · intro g hg
    rw [monitorSafety_goals] at hg
    rw [monitorSafety_progress]
    exact updateUserProfile_goalsProgressInv um.userProfile content now h g hg
  · exact h

theorem applyOp_goalsProgressInv (cap : Nat) (um : UserMemory) (op : MemOp)
    (h : GoalsProgressInv um.userProfile) :
    GoalsProgressInv (applyOp cap um op).userProfile := by
  cases op with
  | addMsg role content now => exact addMessage_goalsProgressInv um role content now cap h
  | updProg goal value => exact updateProgress_goalsProgressInv um.userProfile goal value h
  | addIns text now => exact h

theorem applyOps_goalsProgressInv (cap : Nat) (ops : List MemOp) :
    ∀ um : UserMemory, GoalsProgressInv um.userProfile →
      GoalsProgressInv ((applyOps cap um ops).userProfile) := by
  induction ops with
  | nil => intro um h; exact h
  | cons op rest ih =>
    intro um h
    exact ih _ (applyOp_goalsProgressInv cap um op h)

/-- C10: starting from a fresh memory, after any sequence of `add_message`,
`update_progress` and `add_insight` operations, every string in the
profile's goals list is a key of the profile's progress mapping. -/
theorem c10_goals_have_progress (uid : String) (cap : Nat) (ops : List MemOp) :
    GoalsProgressInv ((applyOps cap (UserMemory.mkNew uid) ops).userProfile) := by
  apply applyOps_goalsProgressInv
  intro g hg
  simp [UserMemory.mkNew, UserProfile.init] at hg

/-! ### Claim C9: monitor_message frame property -/

theorem detectLowEngagement_frame (m : List Char) (uid : String)
    (eng : List (String × EngagementMetrics)) (now : ℚ) (u : String)
    (hu : u ≠ uid) :
    alistGet (detectLowEngagement m uid eng now).2 u = alistGet eng u := by
  unfold detectLowEngagement
  dsimp only
  exact alistGet_set_ne eng uid u _ hu

/-- C9: `monitor_message` returns exactly the alerts it appends to the
monitor's log in that call, leaves every other monitor field
(`user_sessions`, `performance_baselines`, `mental_health_indicators`,
thresholds) unchanged, touches no other user's engagement metrics, and —
the profile being a read-only input of the embedding, exactly as the
source only ever reads it — leaves the profile argument unchanged. -/
theorem c9_monitor_frame (msg : List Char) (uid : String) (prof : UserProfile)
    (mon : SafetyMonitor) (now : ℚ) :
    (monitorMessage msg uid prof mon now).2.alerts =
      mon.alerts ++ (monitorMessage msg uid prof mon now).1 ∧
    (monitorMessage msg uid prof mon now).2.userSessions = mon.userSessions ∧
    (monitorMessage msg uid prof mon now).2.performanceBaselines =
      mon.performanceBaselines ∧
    (monitorMessage msg uid prof mon now).2.mentalHealthIndicators =
      mon.mentalHealthIndicators ∧
    (monitorMessage msg uid prof mon now).2.thresholds = mon.thresholds ∧
    ∀ u : String, u ≠ uid →
      alistGet (monitorMessage msg uid prof mon now).2.engagementMetrics u =
        alistGet mon.engagementMetrics u := by
  refine ⟨rfl, rfl, rfl, rfl, rfl, ?_⟩
  intro u hu
  exact detectLowEngagement_frame (pyLower msg) uid mon.engagementMetrics now u hu

/-- Witness for C9: after monitoring a message of user `"u"`, user `"v"`'s
engagement metrics are untouched. -/
theorem c9_monitor_frame_witness :
    alistGet (monitorMessage "hello there my friend coach".toList "u"
        UserProfile.init SafetyMonitor.init 0).2.engagementMetrics "v" =
      alistGet SafetyMonitor.init.engagementMetrics "v" :=
  (c9_monitor_frame "hello there my friend coach".toList "u" UserProfile.init
    SafetyMonitor.init 0).2.2.2.2.2 "v" (by decide)

/-! ### Claim C2: "kill myself" always raises one MENTAL_HEALTH EMERGENCY -/

/-- Is an alert a MENTAL_HEALTH alert at EMERGENCY level? -/
def emMH (a : SafetyAlert) : Bool :=
  decide (a.category = SafetyCategory.MENTAL_HEALTH) &&
  decide (a.level = SafetyLevel.EMERGENCY)

theorem filter_emMH_nil (l : List SafetyAlert)
    (h : ∀ a ∈ l, emMH a = false) : l.filter emMH = [] := by
  induction l with
  | nil => rfl
  | cons a rest ih =>
    simp [List.filter_cons, h a (List.mem_cons_self a rest),
      ih (fun b hb => h b (List.mem_cons_of_mem a hb))]

theorem detectOvertraining_no_em (m : List Char) (uid : String)
    (th : Thresholds) (now : ℚ) :
    ∀ a ∈ detectOvertraining m uid th now, emMH a = false := by
  intro a ha
  unfold detectOvertraining at ha
  dsimp only at ha
  rcases List.mem_append.mp ha with h | h
  · split at h
    · rw [List.mem_singleton] at h; subst h; rfl
    · simp at h
  · split at h
    · rw [List.mem_singleton] at h; subst h; rfl
    · simp at h

theorem detectDataInconsistency_no_em (m : List Char) (uid : String)
    (prof : UserProfile) (now : ℚ) :
    ∀ a ∈ detectDataInconsistency m uid prof now, emMH a = false := by
  intro a ha
  unfold detectDataInconsistency at ha
  rcases List.mem_append.mp ha with h | h
  · split at h
    · split at h
      · split at h
        · split at h
          · rw [List.mem_singleton] at h; subst h; rfl
          · simp at h
        · simp at h
      · simp at h
    · simp at h
  · split at h
    · rw [List.mem_singleton] at h; subst h; rfl
    · simp at h

theorem detectLowEngagement_no_em (m : List Char) (uid : String)
    (eng : List (String × EngagementMetrics)) (now : ℚ) :
    ∀ a ∈ (detectLowEngagement m uid eng now).1, emMH a = false := by
  intro a ha
  unfold detectLowEngagement at ha
  dsimp only at ha
  rcases List.mem_append.mp ha with h | h
  · split at h
    · rw [List.mem_singleton] at h; subst h; rfl
    · simp at h
  · split at h
    · rw [List.mem_singleton] at h; subst h; rfl
    · simp at h

theorem detectResistance_no_em (m : List Char) (uid : String)
    (th : Thresholds) (now : ℚ) :
    ∀ a ∈ detectResistance m uid th now, emMH a = false := by
  intro a ha
  unfold detectResistance at ha
  dsimp only at ha
  split at ha
  · rw [List.mem_singleton] at ha; subst ha; rfl
  · simp at ha

theorem detectCreativityMisuse_no_em (m : List Char) (uid : String) (now : ℚ) :
    ∀ a ∈ detectCreativityMisuse m uid now, emMH a = false := by
  intro a ha
  unfold detectCreativityMisuse at ha
  dsimp only at ha
  split at ha
  · split at ha
    · rw [List.mem_singleton] at ha; subst ha; rfl
    · rw [List.mem_singleton] at ha; subst ha; rfl
  · simp at ha

theorem detectMentalHealth_filter_em (m : List Char) (uid : String)
    (th : Thresholds) (now : ℚ) (h : 0 < hitCount mentalHealthRedFlags m) :
    (detectMentalHealthRisks m uid th now).filter emMH =
      [mentalHealthEmergencyAlert uid now] := by
  unfold detectMentalHealthRisks
  dsimp only
  rw [List.filter_append, if_pos h]
  have h2 : (if ((hitCount anxietyIndicators m : ℚ) + (hitCount depressionIndicators m : ℚ)) /
        ((anxietyIndicators.length : ℚ) + (depressionIndicators.length : ℚ)) >
        th.mentalHealthRisk then [mentalHealthWarnAlert uid now] else
        []).filter emMH = [] := by
    split
    · rfl
    · rfl
  rw [h2]
  rfl

theorem detectPerformanceDrop_no_em (m : List Char) (uid : String) (now : ℚ) :
    ∀ a ∈ detectPerformanceDrop m uid now, emMH a = false := by
  intro a ha
  unfold detectPerformanceDrop at ha
  dsimp only at ha
  split at ha
  · rw [List.mem_singleton] at ha; subst ha; rfl
  · simp at ha

theorem detectTeamConflict_no_em (m : List Char) (uid : String) (now : ℚ) :
    ∀ a ∈ detectTeamConflict m uid now, emMH a = false := by
  intro a ha
  unfold detectTeamConflict at ha
  split at ha
  · rw [List.mem_singleton] at ha; subst ha; rfl
  · simp at ha

theorem detectRewardMisuse_no_em (m : List Char) (uid : String) (now : ℚ) :
    ∀ a ∈ detectRewardMisuse m uid now, emMH a = false := by
  intro a ha
  unfold detectRewardMisuse at ha
  dsimp only at ha
  split at ha
  · rw [List.mem_singleton] at ha; subst ha; rfl
  · simp at ha

theorem detectLanguageBarriers_no_em (m : List Char) (uid : String) (now : ℚ) :
    ∀ a ∈ detectLanguageBarriers m uid now, emMH a = false := by
  intro a ha
  unfold detectLanguageBarriers at ha
  dsimp only at ha
  split at ha
  · rw [List.mem_singleton] at ha; subst ha; rfl
  · simp at ha

theorem frStep_cases (m : List Char) (uid : String) (prof : UserProfile)
    (now : ℚ) (alerts : List SafetyAlert) (pat : List Char × List Char) :
    frStep m uid prof now alerts pat = alerts ∨
    frStep m uid prof now alerts pat = alerts ++ [falseReportingAlert uid now] := by
  unfold frStep
  rcases searchLitNum pat.1 pat.2 m with _ | r
  · left; rfl
  · dsimp only
    split
    · split
      · right; rfl
      · left; rfl
    · left; rfl

theorem detectFalseReporting_foldl_no_em (m : List Char) (uid : String)
    (prof : UserProfile) (now : ℚ) (pats : List (List Char × List Char)) :
    ∀ acc : List SafetyAlert,
      (pats.foldl (frStep m uid prof now) acc).filter emMH = acc.filter emMH := by
  induction pats with
  | nil => intro acc; rfl
  | cons pat rest ih =>
    intro acc
    rw [List.foldl_cons]
    rcases frStep_cases m uid prof now acc pat with h | h <;> rw [h, ih]
    rw [List.filter_append]
    simp [emMH, falseReportingAlert]

theorem detectFalseReporting_no_em (m : List Char) (uid : String)
    (prof : UserProfile) (now : ℚ) :
    (detectFalseReporting m uid prof now).filter emMH = [] := by
  unfold detectFalseReporting
  rw [detectFalseReporting_foldl_no_em]
  rfl

theorem detectBurnoutVsLaziness_no_em (m : List Char) (uid : String) (now : ℚ) :
    ∀ a ∈ detectBurnoutVsLaziness m uid now, emMH a = false := by
  intro a ha
  unfold detectBurnoutVsLaziness at ha
  dsimp only at ha
  split at ha
  · rw [List.mem_singleton] at ha; subst ha; rfl
  · split at ha
    · rw [List.mem_singleton] at ha; subst ha; rfl
    · simp at ha

theorem monitorMessage_filter_em (msg : List Char) (uid : String)
    (prof : UserProfile) (mon : SafetyMonitor) (now : ℚ)
    (h : strContains (pyLower msg) "kill myself".toList = true) :
    (monitorMessage msg uid prof mon now).1.filter emMH =
      [mentalHealthEmergencyAlert uid now] := by
  have hred : 0 < hitCount mentalHealthRedFlags (pyLower msg) := by
    unfold hitCount
    rw [List.countP_pos_iff]
    exact ⟨"kill myself".toList, by decide, by simpa using h⟩
  unfold monitorMessage
  dsimp only
  simp only [List.filter_append]
  rw [filter_emMH_nil _ (detectOvertraining_no_em _ _ _ _),
    filter_emMH_nil _ (detectDataInconsistency_no_em _ _ _ _),
    filter_emMH_nil _ (detectLowEngagement_no_em _ _ _ _),
    filter_emMH_nil _ (detectResistance_no_em _ _ _ _),
    filter_emMH_nil _ (detectCreativityMisuse_no_em _ _ _),
    detectMentalHealth_filter_em _ _ _ _ hred,
    filter_emMH_nil _ (detectPerformanceDrop_no_em _ _ _),
    filter_emMH_nil _ (detectTeamConflict_no_em _ _ _),
    filter_emMH_nil _ (detectRewardMisuse_no_em _ _ _),
    filter_emMH_nil _ (detectLanguageBarriers_no_em _ _ _),
    detectFalseReporting_no_em _ _ _ _,
    filter_emMH_nil _ (detectBurnoutVsLaziness_no_em _ _ _)]
  simp

theorem monitorSafety_safetyAlerts (uid : String) (p : UserProfile)
    (mon : SafetyMonitor) (m : List Char) (now : ℚ) :
    (monitorSafety uid p mon m now).1.safetyAlerts =
      p.safetyAlerts ++
        (monitorMessage m uid p mon now).1.map flattenAlert := by
  simp only [monitorSafety, addInsight]
  split <;> rfl

/-- C2: if the lowercased message contains the phrase "kill myself", then
`monitor_message` produces exactly one MENTAL_HEALTH EMERGENCY alert (the
red-flag alert, with escalation required), no matter what else the message
contains or how many red-flag phrases occur; and `add_message` with role
"user" stores a mental_health / emergency / escalation-required alert
record in the profile. -/
theorem c2_mental_health_emergency (msg : List Char) (uid : String)
    (prof : UserProfile) (mon : SafetyMonitor) (um : UserMemory) (now : ℚ)
    (cap : Nat) (h : strContains (pyLower msg) "kill myself".toList = true) :
    (monitorMessage msg uid prof mon now).1.filter emMH =
      [mentalHealthEmergencyAlert uid now] ∧
    (mentalHealthEmergencyAlert uid now).escalationRequired = true ∧
    ∃ a ∈ (addMessage um "user" msg now cap).userProfile.safetyAlerts,
      a.category = "mental_health" ∧ a.level = "emergency" ∧
        a.escalationRequired = true := by
  refine ⟨monitorMessage_filter_em msg uid prof mon now h, rfl, ?_⟩
  unfold addMessage
  rw [if_pos rfl]
  dsimp only
  rw [monitorSafety_safetyAlerts]
  refine ⟨flattenAlert (mentalHealthEmergencyAlert um.userId now), ?_, rfl, rfl, rfl⟩
  apply List.mem_append_right
  apply List.mem_map_of_mem
  have hfil := monitorMessage_filter_em msg um.userId
    (updateUserProfile um.userProfile msg now) um.safetyMonitor now h
  have : mentalHealthEmergencyAlert um.userId now ∈
      (monitorMessage msg um.userId (updateUserProfile um.userProfile msg now)
        um.safetyMonitor now).1.filter emMH := by
    rw [hfil]; exact List.mem_singleton_self _
  exact List.mem_of_mem_filter this

/-- Witness for C2: the message "i want to kill myself" triggers exactly the
emergency red-flag alert. -/
theorem c2_mental_health_emergency_witness :
    strContains (pyLower "i want to kill myself".toList)
      "kill myself".toList = true ∧
    (monitorMessage "i want to kill myself".toList "u" UserProfile.init
        SafetyMonitor.init 0).1.filter emMH =
      [mentalHealthEmergencyAlert "u" 0] :=
  ⟨by decide,
   (c2_mental_health_emergency "i want to kill myself".toList "u"
      UserProfile.init SafetyMonitor.init (UserMemory.mkNew "u") 0 10
      (by decide)).1⟩
